import Mathlib

/-!
KeyboardioHID `HIDD` driver: embedding and verified properties.

Shallow embedding of `plugins/KeyboardioHID/src/HIDD.cpp`.

* The driver object is the record `HIDD`; every member function takes the
  current system state (`Sys`: the driver plus the log of calls made to the
  USB stack) and returns its C++ result together with the next state.
* The USB stack is an arbitrary `Transport`: its answers may depend on every
  call made before.
* Names that come from headers which are not part of the translated file
  (`HIDD.h`, `HID-Settings.h`, the USB core) are fields of `Defs`, so every
  theorem holds for whatever values those headers give them.
-/

namespace Kaleidoscope

/-! ## Names supplied by headers and by the build -/

/-- Constants, preprocessor switches and type widths that `HIDD.cpp` uses but
does not define. -/
structure Defs where
  REQUEST_DEVICETOHOST_CLASS_INTERFACE : Nat
  REQUEST_HOSTTODEVICE_CLASS_INTERFACE : Nat
  REQUEST_DEVICETOHOST_STANDARD_INTERFACE : Nat
  HID_GET_REPORT : Nat
  HID_GET_IDLE : Nat
  HID_GET_PROTOCOL : Nat
  HID_SET_REPORT : Nat
  HID_SET_IDLE : Nat
  HID_SET_PROTOCOL : Nat
  HID_REPORT_DESCRIPTOR_TYPE : Nat
  HID_REPORT_TYPE_OUTPUT : Nat
  HID_PROTOCOL_NONE : Nat
  HID_PROTOCOL_KEYBOARD : Nat
  HID_SUBCLASS_NONE : Nat
  HID_SUBCLASS_BOOT : Nat
  USB_DEVICE_CLASS_HUMAN_INTERFACE : Nat
  USB_ENDPOINT_TYPE_INTERRUPT : Nat
  USB_EP_SIZE : Nat
  TRANSFER_RELEASE : Nat
  TRANSFER_PGM : Nat
  /-- The function-like `USB_ENDPOINT_IN(addr)`. -/
  USB_ENDPOINT_IN : Nat → Nat
  /-- The function-like `EP_TYPE_INTERRUPT_IN(len)` of builds with
  `ARCH_HAS_CONFIGURABLE_EP_SIZES`. -/
  EP_TYPE_INTERRUPT_IN_SIZED : Nat → Nat
  /-- The plain `EP_TYPE_INTERRUPT_IN` of the other builds. -/
  EP_TYPE_INTERRUPT_IN : Nat
  /-- The value of `sizeof(HIDDescriptor)`. -/
  sizeofHIDDescriptor : Nat
  /-- Whether `ARCH_HAS_CONFIGURABLE_EP_SIZES` is defined. -/
  ARCH_HAS_CONFIGURABLE_EP_SIZES : Bool
  /-- Whether `__AVR__` is defined. -/
  AVR : Bool
  /-- Whether `ARDUINO_ARCH_SAM` is defined. -/
  ARDUINO_ARCH_SAM : Bool
  /-- Whether `ARDUINO_ARCH_SAMD` is defined. -/
  ARDUINO_ARCH_SAMD : Bool
  /-- Width in bits of `int`. -/
  intBits : Nat
  /-- Width in bits of `size_t`. -/
  sizeBits : Nat

/-- The request types and request codes that `setup` tells apart are pairwise
different numbers, `int` has at least 16 bits and `size_t` is at least as wide
as `int`. -/
def Defs.WellFormed (D : Defs) : Prop :=
  D.REQUEST_DEVICETOHOST_CLASS_INTERFACE ≠ D.REQUEST_HOSTTODEVICE_CLASS_INTERFACE ∧
  [D.HID_GET_REPORT, D.HID_GET_IDLE, D.HID_GET_PROTOCOL,
    D.HID_SET_REPORT, D.HID_SET_IDLE, D.HID_SET_PROTOCOL].Nodup ∧
  16 ≤ D.intBits ∧ D.intBits ≤ D.sizeBits

instance (D : Defs) : Decidable D.WellFormed := by
  unfold Defs.WellFormed
  infer_instance

/-- The values of the USB 2.0 and HID 1.11 specifications, as an 8-bit AVR
build sees them (16-bit `int`, separate id and payload writes, fixed endpoint
size 64). -/
def avrDefs : Defs where
  REQUEST_DEVICETOHOST_CLASS_INTERFACE := 0xA1
  REQUEST_HOSTTODEVICE_CLASS_INTERFACE := 0x21
  REQUEST_DEVICETOHOST_STANDARD_INTERFACE := 0x81
  HID_GET_REPORT := 0x01
  HID_GET_IDLE := 0x02
  HID_GET_PROTOCOL := 0x03
  HID_SET_REPORT := 0x09
  HID_SET_IDLE := 0x0A
  HID_SET_PROTOCOL := 0x0B
  HID_REPORT_DESCRIPTOR_TYPE := 0x22
  HID_REPORT_TYPE_OUTPUT := 2
  HID_PROTOCOL_NONE := 0
  HID_PROTOCOL_KEYBOARD := 1
  HID_SUBCLASS_NONE := 0
  HID_SUBCLASS_BOOT := 1
  USB_DEVICE_CLASS_HUMAN_INTERFACE := 3
  USB_ENDPOINT_TYPE_INTERRUPT := 3
  USB_EP_SIZE := 64
  TRANSFER_RELEASE := 0x40
  TRANSFER_PGM := 0x80
  USB_ENDPOINT_IN := fun addr => (addr ||| 0x80) % 256
  EP_TYPE_INTERRUPT_IN_SIZED := fun _ => 0xC1
  EP_TYPE_INTERRUPT_IN := 0xC1
  sizeofHIDDescriptor := 25
  ARCH_HAS_CONFIGURABLE_EP_SIZES := false
  AVR := true
  ARDUINO_ARCH_SAM := false
  ARDUINO_ARCH_SAMD := false
  intBits := 16
  sizeBits := 16

/-- A 32-bit SAMD build: merged id-and-payload buffer, control answers through
`USB_SendControl`. -/
def samdDefs : Defs :=
  { avrDefs with AVR := false, ARDUINO_ARCH_SAMD := true, intBits := 32, sizeBits := 32 }

/-- A 32-bit build with `ARCH_HAS_CONFIGURABLE_EP_SIZES`. -/
def sizedDefs : Defs :=
  { avrDefs with AVR := false, ARCH_HAS_CONFIGURABLE_EP_SIZES := true,
                 intBits := 32, sizeBits := 32 }

/-! ## Machine integers -/

/-- Value of an unsigned number after conversion to a signed integer of `w`
bits (two's complement). -/
def toSigned (w : Nat) (v : Nat) : Int :=
  if v % 2 ^ w < 2 ^ (w - 1) then ((v % 2 ^ w : Nat) : Int)
  else ((v % 2 ^ w : Nat) : Int) - ((2 ^ w : Nat) : Int)

/-- Value of a signed integer after conversion to an unsigned type of `w`
bits. -/
def toUnsigned (w : Nat) (i : Int) : Nat :=
  (i % ((2 ^ w : Nat) : Int)).toNat

/-- Width in bits of `int` for arithmetic: the width of the build, and never
less than the 16 bits the language guarantees. -/
def Defs.intWidth (D : Defs) : Nat :=
  max 16 D.intBits

/-- The value of `a + b` computed in `int`: the sum, brought back into the
range of `int` (two's complement) when it leaves it. -/
def addInt (D : Defs) (a b : Int) : Int :=
  toSigned D.intWidth (toUnsigned D.intWidth (a + b))

/-! ## Buffers -/

/-- The first `len` bytes of the memory a pointer designates. -/
def readBuf (buf : List Nat) (len : Int) : List Nat :=
  buf.take len.toNat

/-- Effect of `memcpy(&dst[off], src, n)` on `dst`. -/
def memcpyAt (dst : List Nat) (off : Nat) (src : List Nat) (n : Nat) : List Nat :=
  dst.take off ++ src.take n ++ dst.drop (off + (src.take n).length)

/-! ## The USB stack -/

/-- One of the three records of the descriptor set, kept as the arguments
handed to `D_INTERFACE`, `D_HIDREPORT` and `D_ENDPOINT`. -/
inductive Descriptor
  | D_INTERFACE (n numEndpoints cls subClass protocol : Nat)
  | D_HIDREPORT (length : Nat)
  | D_ENDPOINT (addr attr packetSize interval : Nat)
  deriving DecidableEq, Repr

/-- What a control send points at. -/
inductive Payload
  | bytes (bs : List Nat)
  | records (rs : List Descriptor)
  deriving DecidableEq, Repr

/-- A call that leaves the driver, with the arguments it carried and, where
the callee returns something, what it returned. -/
inductive Event
  /-- `USB_SendControl(flags, data, len)`. -/
  | sendControl (flags : Nat) (data : Payload) (len : Int) (ret : Int)
  /-- `USB_RecvControl(buffer, len)`; `received` are the bytes it stored. -/
  | recvControl (len : Int) (ret : Int) (received : List Nat)
  /-- `USB_Send(ep, data, len)`; `data` are the `len` bytes pointed at. -/
  | send (ep : Nat) (data : List Nat) (len : Int) (ret : Int)
  /-- `USBDevice.armSend(ep, data, len)`. -/
  | armSend (ep : Nat) (data : List Nat) (len : Nat)
  /-- `UEDATX = b`. -/
  | uedatx (b : Nat)
  /-- `setReportCB(data, len)`, the output-report callback. -/
  | setReportCB (data : List Nat) (len : Int)
  deriving DecidableEq, Repr

/-- The USB stack: each primitive answers as it likes, knowing every call made
so far. -/
structure Transport where
  USB_SendControl : List Event → Nat → Payload → Int → Int
  /-- Returns the result and the bytes the host delivered. -/
  USB_RecvControl : List Event → Int → Int × List Nat
  USB_Send : List Event → Nat → List Nat → Int → Int

/-! ## The driver -/

/-- The fields of a `HIDD` object. -/
structure HIDD where
  protocol : Nat
  idle : Nat
  itfProtocol : Nat
  inReportLen : Nat
  interval : Nat
  /-- The bytes `reportDesc` points at. -/
  reportDesc : List Nat
  descriptorSize : Nat
  /-- The array `outReport`; its length is `sizeof(outReport)`. -/
  outReport : List Nat
  epType : Nat
  pluggedInterface : Nat
  pluggedEndpoint : Nat
  deriving DecidableEq, Repr

/-- The driver and the calls made to the USB stack so far, oldest first. -/
structure Sys where
  hid : HIDD
  trace : List Event
  deriving DecidableEq, Repr

/-- The incoming control-request record. -/
structure USBSetup where
  bmRequestType : Nat
  bRequest : Nat
  wValueL : Nat
  wValueH : Nat
  wIndex : Nat
  wLength : Nat
  deriving DecidableEq, Repr

/-- The constructor. The 8-bit parameters truncate their arguments; the
contents of `outReport` and the interface and endpoint numbers kept by the
`PluggableUSBModule` base are not set here and are taken as given. -/
def HIDD.new (D : Defs) (_protocol _idle _itfProtocol _inReportLen _interval : Nat)
    (_reportDesc : List Nat) (_descriptorSize : Nat)
    (outReport : List Nat) (pluggedInterface pluggedEndpoint : Nat) : HIDD where
  protocol := _protocol % 256
  idle := _idle % 256
  itfProtocol := _itfProtocol % 256
  inReportLen := _inReportLen % 256
  interval := _interval % 256
  reportDesc := _reportDesc
  descriptorSize := _descriptorSize % 65536
  outReport := outReport
  epType :=
    if D.ARCH_HAS_CONFIGURABLE_EP_SIZES then D.EP_TYPE_INTERRUPT_IN_SIZED (_inReportLen % 256)
    else D.EP_TYPE_INTERRUPT_IN
  pluggedInterface := pluggedInterface
  pluggedEndpoint := pluggedEndpoint

/-- The descriptor set `descSet` built by `getInterface`. -/
def HIDD.descSet (D : Defs) (h : HIDD) : List Descriptor :=
  let itfSubClass :=
    if h.itfProtocol ≠ D.HID_PROTOCOL_NONE then D.HID_SUBCLASS_BOOT else D.HID_SUBCLASS_NONE
  let epSize := if D.ARCH_HAS_CONFIGURABLE_EP_SIZES then h.inReportLen else D.USB_EP_SIZE % 256
  [ Descriptor.D_INTERFACE h.pluggedInterface 1 D.USB_DEVICE_CLASS_HUMAN_INTERFACE
      itfSubClass h.itfProtocol,
    Descriptor.D_HIDREPORT h.descriptorSize,
    Descriptor.D_ENDPOINT (D.USB_ENDPOINT_IN h.pluggedEndpoint) D.USB_ENDPOINT_TYPE_INTERRUPT
      epSize h.interval ]

/-- `int HIDD::getInterface(uint8_t *interfaceCount)`: the result, the new
value of `*interfaceCount` and the next state. -/
def HIDD.getInterface (D : Defs) (t : Transport) (s : Sys) (interfaceCount : Nat) :
    Int × Nat × Sys :=
  let descSet := Payload.records (s.hid.descSet D)
  let interfaceCount' := (interfaceCount + 1) % 256
  let len : Int := D.sizeofHIDDescriptor
  let ret := t.USB_SendControl s.trace 0 descSet len
  (ret, interfaceCount', { s with trace := s.trace ++ [Event.sendControl 0 descSet len ret] })

/-- `int HIDD::getDescriptor(USBSetup &setup)`. -/
def HIDD.getDescriptor (D : Defs) (t : Transport) (s : Sys) (setup : USBSetup) : Int × Sys :=
  if setup.bmRequestType ≠ D.REQUEST_DEVICETOHOST_STANDARD_INTERFACE then (0, s)
  else if setup.wValueH ≠ D.HID_REPORT_DESCRIPTOR_TYPE then (0, s)
  else if setup.wIndex ≠ s.hid.pluggedInterface then (0, s)
  else
    let data := Payload.bytes s.hid.reportDesc
    let len : Int := s.hid.descriptorSize
    let ret := t.USB_SendControl s.trace D.TRANSFER_PGM data len
    (ret, { s with trace := s.trace ++ [Event.sendControl D.TRANSFER_PGM data len ret] })

/-- The one-byte control answer of `GET_PROTOCOL` and `GET_IDLE`: a write to
`UEDATX` on AVR, `USBDevice.armSend(0, &b, 1)` on SAM, and
`USB_SendControl(TRANSFER_RELEASE, &b, sizeof(b))` elsewhere. The result of the
call is dropped in all three. -/
def sendByte (D : Defs) (t : Transport) (s : Sys) (b : Nat) : Sys :=
  if D.AVR then { s with trace := s.trace ++ [Event.uedatx b] }
  else if D.ARDUINO_ARCH_SAM then { s with trace := s.trace ++ [Event.armSend 0 [b] 1] }
  else
    let ret := t.USB_SendControl s.trace D.TRANSFER_RELEASE (Payload.bytes [b]) 1
    { s with trace := s.trace ++ [Event.sendControl D.TRANSFER_RELEASE (Payload.bytes [b]) 1 ret] }

/-- The block `if (requestType == REQUEST_DEVICETOHOST_CLASS_INTERFACE)` of
`setup`; `none` when control falls out of the block. -/
def HIDD.setupDeviceToHost (D : Defs) (t : Transport) (s : Sys) (setup : USBSetup) :
    Option (Bool × Sys) :=
  let request := setup.bRequest
  if request = D.HID_GET_REPORT then some (true, s)
  else if request = D.HID_GET_PROTOCOL then
    if s.hid.itfProtocol = D.HID_PROTOCOL_NONE then some (false, s)
    else some (true, sendByte D t s s.hid.protocol)
  else if request = D.HID_GET_IDLE then some (true, sendByte D t s s.hid.idle)
  else none

/-- The block `if (requestType == REQUEST_HOSTTODEVICE_CLASS_INTERFACE)` of
`setup`; `none` when control falls out of the block. -/
def HIDD.setupHostToDevice (D : Defs) (t : Transport) (s : Sys) (setup : USBSetup) :
    Option (Bool × Sys) :=
  let request := setup.bRequest
  if request = D.HID_SET_PROTOCOL then
    if s.hid.itfProtocol = D.HID_PROTOCOL_NONE then some (false, s)
    else some (true, { s with hid := { s.hid with protocol := setup.wValueL } })
  else if request = D.HID_SET_IDLE then
    some (true, { s with hid := { s.hid with idle := setup.wValueL } })
  else if request = D.HID_SET_REPORT then
    -- `int length = setup.wLength;`
    let length : Int := toSigned D.intBits setup.wLength
    if setup.wValueH = D.HID_REPORT_TYPE_OUTPUT then
      -- `length <= sizeof(outReport)` compares in `size_t`
      if toUnsigned D.sizeBits length ≤ s.hid.outReport.length then
        let r := t.USB_RecvControl s.trace length
        let received := readBuf r.2 length
        let outReport := memcpyAt s.hid.outReport 0 received received.length
        some (true,
          { hid := { s.hid with outReport := outReport },
            trace := s.trace ++
              [Event.recvControl length r.1 received, Event.setReportCB outReport length] })
      else none
    else none
  else none

/-- `bool HIDD::setup(USBSetup &setup)`. -/
def HIDD.setup (D : Defs) (t : Transport) (s : Sys) (setup : USBSetup) : Bool × Sys :=
  if s.hid.pluggedInterface ≠ setup.wIndex then (false, s)
  else
    let requestType := setup.bmRequestType
    let afterFirst : Option (Bool × Sys) :=
      if requestType = D.REQUEST_DEVICETOHOST_CLASS_INTERFACE then
        HIDD.setupDeviceToHost D t s setup
      else none
    match afterFirst with
    | some r => r
    | none =>
      let afterSecond : Option (Bool × Sys) :=
        if requestType = D.REQUEST_HOSTTODEVICE_CLASS_INTERFACE then
          HIDD.setupHostToDevice D t s setup
        else none
      match afterSecond with
      | some r => r
      | none => (false, s)

/-- `int HIDD::SendReportNoID(const void *data, int len)`. -/
def HIDD.SendReportNoID (D : Defs) (t : Transport) (s : Sys) (data : List Nat) (len : Int) :
    Int × Sys :=
  let ep := s.hid.pluggedEndpoint ||| D.TRANSFER_RELEASE
  let ret := t.USB_Send s.trace ep (readBuf data len) len
  (ret, { s with trace := s.trace ++ [Event.send ep (readBuf data len) len ret] })

/-- What stops `SendReport` short of a result. -/
inductive Fault
  /-- The `memcpy` into `p[64]` would write past the end of `p`. -/
  | bufferIndex
  deriving DecidableEq, Repr

/-- The body of `SendReport` under `ARDUINO_ARCH_SAMD`: id and payload merged
in the 64-byte array `p`, one write. -/
def HIDD.SendReportMerged (t : Transport) (s : Sys) (id : Nat) (data : List Nat) (len : Int) :
    Except Fault (Int × Sys) :=
  let p0 : List Nat := List.replicate 64 0
  let p1 := p0.set 0 id
  -- `memcpy(&p[1], data, len)`: `len` converts to `size_t`
  if len < 0 ∨ 64 < 1 + len then Except.error Fault.bufferIndex
  else
    let p := memcpyAt p1 1 data len.toNat
    let ep := s.hid.pluggedEndpoint
    let ret := t.USB_Send s.trace ep (readBuf p (len + 1)) (len + 1)
    Except.ok (ret, { s with trace := s.trace ++ [Event.send ep (readBuf p (len + 1)) (len + 1) ret] })

/-- The body of `SendReport` on the other builds: the id, then the payload. -/
def HIDD.SendReportSplit (D : Defs) (t : Transport) (s : Sys) (id : Nat) (data : List Nat)
    (len : Int) : Int × Sys :=
  let ep := s.hid.pluggedEndpoint
  let ret := t.USB_Send s.trace ep [id] 1
  let s1 : Sys := { s with trace := s.trace ++ [Event.send ep [id] 1 ret] }
  if ret < 0 then (ret, s1)
  else
    let ep2 := s.hid.pluggedEndpoint ||| D.TRANSFER_RELEASE
    let ret2 := t.USB_Send s1.trace ep2 (readBuf data len) len
    let s2 : Sys := { s1 with trace := s1.trace ++ [Event.send ep2 (readBuf data len) len ret2] }
    if ret2 < 0 then (ret2, s2)
    else (addInt D ret ret2, s2)

/-- `int HIDD::SendReport(uint8_t id, const void *data, int len)`. -/
def HIDD.SendReport (D : Defs) (t : Transport) (s : Sys) (id : Nat) (data : List Nat)
    (len : Int) : Except Fault (Int × Sys) :=
  if id = 0 then Except.ok (HIDD.SendReportNoID D t s data len)
  else if D.ARDUINO_ARCH_SAMD then HIDD.SendReportMerged t s id data len
  else Except.ok (HIDD.SendReportSplit D t s id data len)

/-! ## Reading the log -/

/-- The bytes a call hands to an interrupt endpoint. -/
def Event.endpointBytes : Event → List Nat
  | Event.send _ data _ _ => data
  | _ => []

/-- The result of a call to `USB_Send`. -/
def Event.sendResult : Event → Option Int
  | Event.send _ _ _ ret => some ret
  | _ => none

/-- Whether the event is a call of a send or receive primitive of the USB
stack (the callback is not). -/
def Event.isTransport : Event → Bool
  | Event.setReportCB _ _ => false
  | _ => true

/-- Whether the event is a call of the output-report callback. -/
def Event.isCallback : Event → Bool
  | Event.setReportCB _ _ => true
  | _ => false

/-- The bytes of a one-byte-at-a-time control answer: what the event puts
into the control endpoint. -/
def Event.controlBytes : Event → List Nat
  | Event.sendControl _ (Payload.bytes bs) len _ => readBuf bs len
  | Event.armSend _ data len => data.take len
  | Event.uedatx b => [b]
  | _ => []

/-- A stack that takes every endpoint write in full. -/
def Transport.AcceptsAll (t : Transport) : Prop :=
  ∀ tr ep data len, t.USB_Send tr ep data len = len

/-- A stack whose every primitive reports the full length and which delivers
the given bytes on a receive. -/
def okTransport (incoming : List Nat) : Transport where
  USB_SendControl := fun _ _ _ len => len
  USB_RecvControl := fun _ len => (len, incoming)
  USB_Send := fun _ _ _ len => len

/-- A stack whose every primitive fails with `-1`. -/
def failTransport : Transport where
  USB_SendControl := fun _ _ _ _ => -1
  USB_RecvControl := fun _ _ => (-1, [])
  USB_Send := fun _ _ _ _ => -1

/-- A keyboard driver as the scenario of the specification builds it: boot
keyboard, report length 8, interval 10, plugged at interface 2, endpoint 3. -/
def keyboard (D : Defs) : HIDD :=
  HIDD.new D 1 0 D.HID_PROTOCOL_KEYBOARD 8 10 [5, 1, 9, 6] 4 (List.replicate 8 0) 2 3

/-! ## How `setup` dispatches -/

theorem Defs.WellFormed.types_ne {D : Defs} (hD : D.WellFormed) :
    D.REQUEST_DEVICETOHOST_CLASS_INTERFACE ≠ D.REQUEST_HOSTTODEVICE_CLASS_INTERFACE :=
  hD.1

theorem Defs.WellFormed.codes_ne {D : Defs} (hD : D.WellFormed) :
    (D.HID_GET_REPORT ≠ D.HID_GET_IDLE ∧ D.HID_GET_REPORT ≠ D.HID_GET_PROTOCOL ∧
      D.HID_GET_REPORT ≠ D.HID_SET_REPORT ∧ D.HID_GET_REPORT ≠ D.HID_SET_IDLE ∧
      D.HID_GET_REPORT ≠ D.HID_SET_PROTOCOL) ∧
    (D.HID_GET_IDLE ≠ D.HID_GET_PROTOCOL ∧ D.HID_GET_IDLE ≠ D.HID_SET_REPORT ∧
      D.HID_GET_IDLE ≠ D.HID_SET_IDLE ∧ D.HID_GET_IDLE ≠ D.HID_SET_PROTOCOL) ∧
    (D.HID_GET_PROTOCOL ≠ D.HID_SET_REPORT ∧ D.HID_GET_PROTOCOL ≠ D.HID_SET_IDLE ∧
      D.HID_GET_PROTOCOL ≠ D.HID_SET_PROTOCOL) ∧
    (D.HID_SET_REPORT ≠ D.HID_SET_IDLE ∧ D.HID_SET_REPORT ≠ D.HID_SET_PROTOCOL) ∧
    D.HID_SET_IDLE ≠ D.HID_SET_PROTOCOL := by
  have h := hD.2.1
  simp only [List.nodup_cons, List.mem_cons, List.mem_singleton, not_or,
    List.not_mem_nil, not_false_eq_true, List.nodup_nil, and_true] at h
  tauto

theorem avrDefs_wellFormed : avrDefs.WellFormed := by decide

theorem samdDefs_wellFormed : samdDefs.WellFormed := by decide

theorem sizedDefs_wellFormed : sizedDefs.WellFormed := by decide

/-- A request for another interface is left alone. -/
theorem setup_other_interface (D : Defs) (t : Transport) (s : Sys) (r : USBSetup)
    (h : r.wIndex ≠ s.hid.pluggedInterface) : HIDD.setup D t s r = (false, s) := by
  unfold HIDD.setup
  rw [if_pos (fun e => h e.symm)]

/-- The `SET_IDLE` path of `setup`. -/
theorem setup_set_idle (D : Defs) (hD : D.WellFormed) (t : Transport) (s : Sys) (r : USBSetup)
    (hi : r.wIndex = s.hid.pluggedInterface)
    (ht : r.bmRequestType = D.REQUEST_HOSTTODEVICE_CLASS_INTERFACE)
    (hr : r.bRequest = D.HID_SET_IDLE) :
    HIDD.setup D t s r = (true, { s with hid := { s.hid with idle := r.wValueL } }) := by
  have hc := hD.codes_ne
  have ht' := hD.types_ne
  simp [HIDD.setup, HIDD.setupHostToDevice, hi, ht, hr, hc.2.2.2.2, Ne.symm ht']

/-- The `GET_IDLE` path of `setup`. -/
theorem setup_get_idle (D : Defs) (hD : D.WellFormed) (t : Transport) (s : Sys) (r : USBSetup)
    (hi : r.wIndex = s.hid.pluggedInterface)
    (ht : r.bmRequestType = D.REQUEST_DEVICETOHOST_CLASS_INTERFACE)
    (hr : r.bRequest = D.HID_GET_IDLE) :
    HIDD.setup D t s r = (true, sendByte D t s s.hid.idle) := by
  have hc := hD.codes_ne
  simp [HIDD.setup, HIDD.setupDeviceToHost, hi, ht, hr, Ne.symm hc.1.1, hc.2.1.1]

/-- The `SET_PROTOCOL` path of `setup`. -/
theorem setup_set_protocol (D : Defs) (t : Transport) (s : Sys) (r : USBSetup)
    (hD : D.WellFormed)
    (hi : r.wIndex = s.hid.pluggedInterface)
    (ht : r.bmRequestType = D.REQUEST_HOSTTODEVICE_CLASS_INTERFACE)
    (hr : r.bRequest = D.HID_SET_PROTOCOL) :
    HIDD.setup D t s r =
      if s.hid.itfProtocol = D.HID_PROTOCOL_NONE then (false, s)
      else (true, { s with hid := { s.hid with protocol := r.wValueL } }) := by
  have ht' := hD.types_ne
  by_cases hn : s.hid.itfProtocol = D.HID_PROTOCOL_NONE <;>
    simp [HIDD.setup, HIDD.setupHostToDevice, hi, ht, hr, hn, Ne.symm ht']

/-- The `GET_PROTOCOL` path of `setup`. -/
theorem setup_get_protocol (D : Defs) (hD : D.WellFormed) (t : Transport) (s : Sys)
    (r : USBSetup)
    (hi : r.wIndex = s.hid.pluggedInterface)
    (ht : r.bmRequestType = D.REQUEST_DEVICETOHOST_CLASS_INTERFACE)
    (hr : r.bRequest = D.HID_GET_PROTOCOL) :
    HIDD.setup D t s r =
      if s.hid.itfProtocol = D.HID_PROTOCOL_NONE then (false, s)
      else (true, sendByte D t s s.hid.protocol) := by
  have hc := hD.codes_ne
  by_cases hn : s.hid.itfProtocol = D.HID_PROTOCOL_NONE <;>
    simp [HIDD.setup, HIDD.setupDeviceToHost, hi, ht, hr, hn, Ne.symm hc.1.2.1]

/-- The `GET_REPORT` path of `setup`. -/
theorem setup_get_report (D : Defs) (t : Transport) (s : Sys) (r : USBSetup)
    (hi : r.wIndex = s.hid.pluggedInterface)
    (ht : r.bmRequestType = D.REQUEST_DEVICETOHOST_CLASS_INTERFACE)
    (hr : r.bRequest = D.HID_GET_REPORT) :
    HIDD.setup D t s r = (true, s) := by
  simp [HIDD.setup, HIDD.setupDeviceToHost, hi, ht, hr]

/-- The one-byte answer adds one call to the log, carrying that byte, and
touches nothing else. -/
theorem sendByte_spec (D : Defs) (t : Transport) (s : Sys) (b : Nat) :
    ∃ e, sendByte D t s b = { s with trace := s.trace ++ [e] } ∧
      e.controlBytes = [b] ∧ e.isTransport = true := by
  unfold sendByte
  by_cases ha : D.AVR = true
  · exact ⟨Event.uedatx b, by rw [if_pos ha], rfl, rfl⟩
  · by_cases hs : D.ARDUINO_ARCH_SAM = true
    · exact ⟨Event.armSend 0 [b] 1, by rw [if_neg ha, if_pos hs], rfl, rfl⟩
    · exact ⟨Event.sendControl D.TRANSFER_RELEASE (Payload.bytes [b]) 1
        (t.USB_SendControl s.trace D.TRANSFER_RELEASE (Payload.bytes [b]) 1),
        by rw [if_neg ha, if_neg hs], rfl, rfl⟩

/-! ## Idle rate and protocol round trips -/

/-- C1: when the requests name the driver's interface, a host-to-device
class-interface SET_IDLE whose low value byte is `x` is handled and makes no
call to the USB stack, and a device-to-host class-interface GET_IDLE after it
is handled and adds exactly one call, a control answer of the single byte `x`.
Nothing is assumed about the protocol capability `itfProtocol`. -/
theorem set_idle_then_get_idle (D : Defs) (hD : D.WellFormed) (t : Transport) (s : Sys)
    (x : Nat) (r1 r2 : USBSetup)
    (hi1 : r1.wIndex = s.hid.pluggedInterface)
    (ht1 : r1.bmRequestType = D.REQUEST_HOSTTODEVICE_CLASS_INTERFACE)
    (hr1 : r1.bRequest = D.HID_SET_IDLE)
    (hx : r1.wValueL = x)
    (hi2 : r2.wIndex = s.hid.pluggedInterface)
    (ht2 : r2.bmRequestType = D.REQUEST_DEVICETOHOST_CLASS_INTERFACE)
    (hr2 : r2.bRequest = D.HID_GET_IDLE) :
    (HIDD.setup D t s r1).1 = true ∧
    (HIDD.setup D t s r1).2.trace = s.trace ∧
    (HIDD.setup D t (HIDD.setup D t s r1).2 r2).1 = true ∧
    ∃ e, (HIDD.setup D t (HIDD.setup D t s r1).2 r2).2.trace = s.trace ++ [e] ∧
      e.isTransport = true ∧ e.controlBytes = [x] := by
  rw [setup_set_idle D hD t s r1 hi1 ht1 hr1]
  refine ⟨rfl, rfl, ?_⟩
  rw [setup_get_idle D hD t { s with hid := { s.hid with idle := r1.wValueL } } r2 hi2 ht2 hr2]
  refine ⟨rfl, ?_⟩
  obtain ⟨e, he, hb, htr⟩ := sendByte_spec D t
    { s with hid := { s.hid with idle := r1.wValueL } } r1.wValueL
  refine ⟨e, ?_, htr, ?_⟩
  · show (sendByte D t _ _).trace = _
    rw [he]
  · rw [← hx]
    exact hb

/-- The SET_IDLE of the scenario: value 20, interface 2. -/
def setIdle20 (D : Defs) : USBSetup :=
  { bmRequestType := D.REQUEST_HOSTTODEVICE_CLASS_INTERFACE, bRequest := D.HID_SET_IDLE,
    wValueL := 20, wValueH := 0, wIndex := 2, wLength := 0 }

/-- A GET_IDLE for interface 2. -/
def getIdle (D : Defs) : USBSetup :=
  { bmRequestType := D.REQUEST_DEVICETOHOST_CLASS_INTERFACE, bRequest := D.HID_GET_IDLE,
    wValueL := 0, wValueH := 0, wIndex := 2, wLength := 1 }

theorem set_idle_then_get_idle_witness :
    (HIDD.setup samdDefs (okTransport []) ⟨keyboard samdDefs, []⟩ (setIdle20 samdDefs)).1 = true ∧
    ∃ e, (HIDD.setup samdDefs (okTransport [])
        (HIDD.setup samdDefs (okTransport []) ⟨keyboard samdDefs, []⟩ (setIdle20 samdDefs)).2
        (getIdle samdDefs)).2.trace = [] ++ [e] ∧
      e.isTransport = true ∧ e.controlBytes = [20] :=
  have h := set_idle_then_get_idle samdDefs samdDefs_wellFormed (okTransport [])
    ⟨keyboard samdDefs, []⟩ 20 (setIdle20 samdDefs) (getIdle samdDefs)
    rfl rfl rfl rfl rfl rfl rfl
  ⟨h.1, h.2.2.2⟩

/-- C2: when the requests name the driver's interface and the capability
`itfProtocol` is not NONE, a SET_PROTOCOL whose low value byte is `p` is
handled without any call to the USB stack and a GET_PROTOCOL after it is
handled and adds exactly one call, a control answer of the single byte `p`;
when the capability is NONE, SET_PROTOCOL is not handled and the driver and
the log are exactly what they were. -/
theorem set_protocol_then_get_protocol (D : Defs) (hD : D.WellFormed) (t : Transport)
    (s : Sys) (p : Nat) (r1 r2 : USBSetup)
    (hi1 : r1.wIndex = s.hid.pluggedInterface)
    (ht1 : r1.bmRequestType = D.REQUEST_HOSTTODEVICE_CLASS_INTERFACE)
    (hr1 : r1.bRequest = D.HID_SET_PROTOCOL)
    (hp : r1.wValueL = p)
    (hi2 : r2.wIndex = s.hid.pluggedInterface)
    (ht2 : r2.bmRequestType = D.REQUEST_DEVICETOHOST_CLASS_INTERFACE)
    (hr2 : r2.bRequest = D.HID_GET_PROTOCOL) :
    (s.hid.itfProtocol ≠ D.HID_PROTOCOL_NONE →
      (HIDD.setup D t s r1).1 = true ∧
      (HIDD.setup D t s r1).2.trace = s.trace ∧
      (HIDD.setup D t (HIDD.setup D t s r1).2 r2).1 = true ∧
      ∃ e, (HIDD.setup D t (HIDD.setup D t s r1).2 r2).2.trace = s.trace ++ [e] ∧
        e.isTransport = true ∧ e.controlBytes = [p]) ∧
    (s.hid.itfProtocol = D.HID_PROTOCOL_NONE → HIDD.setup D t s r1 = (false, s)) := by
  rw [setup_set_protocol D t s r1 hD hi1 ht1 hr1]
  constructor
  · intro hn
    rw [if_neg hn]
    refine ⟨rfl, rfl, ?_⟩
    rw [setup_get_protocol D hD t { s with hid := { s.hid with protocol := r1.wValueL } } r2
      hi2 ht2 hr2, if_neg hn]
    refine ⟨rfl, ?_⟩
    obtain ⟨e, he, hb, htr⟩ := sendByte_spec D t
      { s with hid := { s.hid with protocol := r1.wValueL } } r1.wValueL
    refine ⟨e, ?_, htr, ?_⟩
    · show (sendByte D t _ _).trace = _
      rw [he]
    · rw [← hp]
      exact hb
  · intro hn
    rw [if_pos hn]

/-- A SET_PROTOCOL for interface 2 selecting the boot protocol. -/
def setProtocolBoot (D : Defs) : USBSetup :=
  { bmRequestType := D.REQUEST_HOSTTODEVICE_CLASS_INTERFACE, bRequest := D.HID_SET_PROTOCOL,
    wValueL := 0, wValueH := 0, wIndex := 2, wLength := 0 }

/-- A GET_PROTOCOL for interface 2. -/
def getProtocol (D : Defs) : USBSetup :=
  { bmRequestType := D.REQUEST_DEVICETOHOST_CLASS_INTERFACE, bRequest := D.HID_GET_PROTOCOL,
    wValueL := 0, wValueH := 0, wIndex := 2, wLength := 1 }

theorem set_protocol_then_get_protocol_witness :
    (keyboard avrDefs).itfProtocol ≠ avrDefs.HID_PROTOCOL_NONE ∧
    (HIDD.setup avrDefs failTransport ⟨keyboard avrDefs, []⟩ (setProtocolBoot avrDefs)).1 = true ∧
    ∃ e, (HIDD.setup avrDefs failTransport
        (HIDD.setup avrDefs failTransport ⟨keyboard avrDefs, []⟩ (setProtocolBoot avrDefs)).2
        (getProtocol avrDefs)).2.trace = [] ++ [e] ∧
      e.isTransport = true ∧ e.controlBytes = [0] :=
  have hn : (keyboard avrDefs).itfProtocol ≠ avrDefs.HID_PROTOCOL_NONE := by decide
  have h := (set_protocol_then_get_protocol avrDefs avrDefs_wellFormed failTransport
    ⟨keyboard avrDefs, []⟩ 0 (setProtocolBoot avrDefs) (getProtocol avrDefs)
    rfl rfl rfl rfl rfl rfl rfl).1 hn
  ⟨hn, h.1, h.2.2.2⟩

/-! ## Requests the driver does not take -/

/-- C4: a request whose `wIndex` is not the driver's interface is not handled,
whatever its type, code, value and length: the driver (`protocol` and `idle`
included) and the log of calls (no send, no receive, no callback) come back
exactly as they were. -/
theorem setup_ignores_other_interfaces (D : Defs) (t : Transport) (s : Sys) (r : USBSetup)
    (h : r.wIndex ≠ s.hid.pluggedInterface) :
    (HIDD.setup D t s r).1 = false ∧
    (HIDD.setup D t s r).2.trace = s.trace ∧
    (HIDD.setup D t s r).2.hid.protocol = s.hid.protocol ∧
    (HIDD.setup D t s r).2.hid.idle = s.hid.idle ∧
    (HIDD.setup D t s r).2 = s := by
  rw [setup_other_interface D t s r h]
  exact ⟨rfl, rfl, rfl, rfl, rfl⟩

theorem setup_ignores_other_interfaces_witness :
    (setIdle20 avrDefs).wIndex ≠ (⟨{ keyboard avrDefs with pluggedInterface := 5 }, []⟩ : Sys).hid.pluggedInterface ∧
    (HIDD.setup avrDefs (okTransport [])
      ⟨{ keyboard avrDefs with pluggedInterface := 5 }, []⟩ (setIdle20 avrDefs)).2
      = ⟨{ keyboard avrDefs with pluggedInterface := 5 }, []⟩ :=
  ⟨by decide, (setup_ignores_other_interfaces avrDefs (okTransport [])
    ⟨{ keyboard avrDefs with pluggedInterface := 5 }, []⟩ (setIdle20 avrDefs)
    (by decide)).2.2.2.2⟩

/-! ## SET_REPORT -/

/-- Reading a 16-bit length into `int` and comparing it, converted to `size_t`,
with a buffer size gives the same verdict as comparing the length itself, and
the `int` is the length whenever the comparison succeeds. -/
theorem length_check (w sz v cap : Nat) (hw : 16 ≤ w) (hsz : w ≤ sz) (hv : v < 65536)
    (hcap : cap < 2 ^ (w - 1)) :
    (toUnsigned sz (toSigned w v) ≤ cap ↔ v ≤ cap) ∧
    (v ≤ cap → toSigned w v = (v : Int)) := by
  have hA : 2 ^ w = 2 * 2 ^ (w - 1) := by
    rw [← pow_succ']
    congr 1
    omega
  have h16 : (65536 : Nat) ≤ 2 ^ w := by
    calc (65536 : Nat) = 2 ^ 16 := by norm_num
      _ ≤ 2 ^ w := Nat.pow_le_pow_right (by norm_num) hw
  have hB : 2 ^ w ≤ 2 ^ sz := Nat.pow_le_pow_right (by norm_num) hsz
  have hmod : v % 2 ^ w = v := Nat.mod_eq_of_lt (by omega)
  unfold toSigned toUnsigned
  rw [hmod]
  by_cases hlt : v < 2 ^ (w - 1)
  · rw [if_pos hlt]
    have e : ((v : Int) % ((2 ^ sz : Nat) : Int)) = (v : Int) := by
      apply Int.emod_eq_of_lt
      · omega
      · have : v < 2 ^ sz := by omega
        exact_mod_cast this
    rw [e]
    simp
  · rw [if_neg hlt]
    have e : (((v : Int) - ((2 ^ w : Nat) : Int)) % ((2 ^ sz : Nat) : Int))
        = (v : Int) - ((2 ^ w : Nat) : Int) + ((2 ^ sz : Nat) : Int) := by
      rw [← Int.add_emod_self]
      apply Int.emod_eq_of_lt
      · have : (2 ^ w : Nat) ≤ 2 ^ sz := hB
        omega
      · have : v < 2 ^ w := by omega
        omega
    rw [e]
    constructor
    · constructor
      · intro h
        exfalso
        have h1 : (2 ^ w : Nat) ≤ 2 ^ sz := hB
        have h2 : ((v : Int) - ((2 ^ w : Nat) : Int) + ((2 ^ sz : Nat) : Int)).toNat
            = v + 2 ^ sz - 2 ^ w := by omega
        rw [h2] at h
        omega
      · intro h
        omega
    · intro h
      omega

theorem readBuf_natCast (buf : List Nat) (n : Nat) : readBuf buf (n : Int) = buf.take n := by
  simp [readBuf]

theorem memcpyAt_zero_full (dst src : List Nat) :
    memcpyAt dst 0 src src.length = src ++ dst.drop src.length := by
  simp [memcpyAt]

/-- C5: a host-to-device class-interface SET_REPORT of report type OUTPUT,
addressed to the driver's interface, with `wLength` anywhere in 0..65535.
If `wLength` is at most the size of `outReport`, `setup` asks the stack for
`wLength` bytes, stores what arrives at the start of `outReport`, calls
`setReportCB` once with that buffer and `wLength`, and returns handled: the
log grows by exactly the receive and the callback, the buffer keeps its size
and starts with the bytes received (all `wLength` of them when the host sends
that many). If `wLength` is larger, `setup` returns not handled and neither
the driver nor the log changes: no receive, no callback. -/
theorem set_report_output (D : Defs) (hD : D.WellFormed) (t : Transport) (s : Sys)
    (r : USBSetup)
    (hcap : s.hid.outReport.length < 2 ^ (D.intBits - 1))
    (hlen : r.wLength < 65536)
    (hi : r.wIndex = s.hid.pluggedInterface)
    (ht : r.bmRequestType = D.REQUEST_HOSTTODEVICE_CLASS_INTERFACE)
    (hr : r.bRequest = D.HID_SET_REPORT)
    (hv : r.wValueH = D.HID_REPORT_TYPE_OUTPUT) :
    (r.wLength ≤ s.hid.outReport.length →
      ∃ received buf,
        received = (t.USB_RecvControl s.trace (r.wLength : Int)).2.take r.wLength ∧
        buf = received ++ s.hid.outReport.drop received.length ∧
        HIDD.setup D t s r =
          (true, { hid := { s.hid with outReport := buf },
                   trace := s.trace ++
                     [Event.recvControl (r.wLength : Int)
                        (t.USB_RecvControl s.trace (r.wLength : Int)).1 received,
                      Event.setReportCB buf (r.wLength : Int)] }) ∧
        buf.length = s.hid.outReport.length ∧
        buf.take received.length = received ∧
        (r.wLength ≤ (t.USB_RecvControl s.trace (r.wLength : Int)).2.length →
          buf.take r.wLength = (t.USB_RecvControl s.trace (r.wLength : Int)).2.take r.wLength)) ∧
    (s.hid.outReport.length < r.wLength → HIDD.setup D t s r = (false, s)) := by
  have hc := hD.codes_ne
  have htn := hD.types_ne
  obtain ⟨hchk, hval⟩ := length_check D.intBits D.sizeBits r.wLength s.hid.outReport.length
    hD.2.2.1 hD.2.2.2 hlen hcap
  constructor
  · intro hle
    have hrl : ((t.USB_RecvControl s.trace (r.wLength : Int)).2.take r.wLength).length
        ≤ s.hid.outReport.length := by
      rw [List.length_take]
      omega
    have hchk' : toUnsigned D.sizeBits (r.wLength : Int) ≤ s.hid.outReport.length := by
      rw [← hval hle]
      exact hchk.2 hle
    refine ⟨_, _, rfl, rfl, ?_, ?_, ?_, ?_⟩
    · simp only [HIDD.setup, HIDD.setupHostToDevice, hi, ht, hr, hv, hval hle, hchk',
        readBuf_natCast, memcpyAt_zero_full, if_true, if_neg (Ne.symm htn), if_neg hc.2.2.2.1.1,
        if_neg hc.2.2.2.1.2, ne_eq, not_true_eq_false, if_false]
    · rw [List.length_append, List.length_drop]
      omega
    · rw [List.take_left']
      rfl
    · intro hfull
      have hl : ((t.USB_RecvControl s.trace (r.wLength : Int)).2.take r.wLength).length
          = r.wLength := by
        rw [List.length_take]
        omega
      rw [List.take_append_of_le_length (by omega), List.take_take]
      simp
  · intro hgt
    have hno : ¬ toUnsigned D.sizeBits (toSigned D.intBits r.wLength) ≤ s.hid.outReport.length :=
      fun h => absurd (hchk.1 h) (by omega)
    simp [HIDD.setup, HIDD.setupHostToDevice, hi, ht, hr, hv, Ne.symm htn, hc.2.2.2.1.1,
      hc.2.2.2.1.2, hno]

/-- A SET_REPORT(OUTPUT) for interface 2 announcing `n` bytes. -/
def setReport (D : Defs) (n : Nat) : USBSetup :=
  { bmRequestType := D.REQUEST_HOSTTODEVICE_CLASS_INTERFACE, bRequest := D.HID_SET_REPORT,
    wValueL := 0, wValueH := D.HID_REPORT_TYPE_OUTPUT, wIndex := 2, wLength := n }

theorem set_report_output_witness :
    (setReport avrDefs 2).wLength ≤ (keyboard avrDefs).outReport.length ∧
    HIDD.setup avrDefs (okTransport [7, 9]) ⟨keyboard avrDefs, []⟩ (setReport avrDefs 2) =
      (true, ⟨{ keyboard avrDefs with outReport := [7, 9, 0, 0, 0, 0, 0, 0] },
        [Event.recvControl 2 2 [7, 9], Event.setReportCB [7, 9, 0, 0, 0, 0, 0, 0] 2]⟩) ∧
    HIDD.setup avrDefs (okTransport [7, 9]) ⟨keyboard avrDefs, []⟩ (setReport avrDefs 40000) =
      (false, ⟨keyboard avrDefs, []⟩) :=
  have h2 := set_report_output avrDefs avrDefs_wellFormed (okTransport [7, 9])
    ⟨keyboard avrDefs, []⟩ (setReport avrDefs 2) (by decide) (by decide) rfl rfl rfl rfl
  have h40000 := set_report_output avrDefs avrDefs_wellFormed (okTransport [7, 9])
    ⟨keyboard avrDefs, []⟩ (setReport avrDefs 40000) (by decide) (by decide) rfl rfl rfl rfl
  ⟨by decide,
   by
    obtain ⟨received, buf, e1, e2, e3, _⟩ := h2.1 (by decide)
    rw [e3, e2, e1]
    rfl,
   h40000.2 (by decide)⟩

/-! ## Sending reports -/

/-- The results of the endpoint writes in a stretch of the log, in order. -/
def sendResults (evs : List Event) : List Int :=
  evs.filterMap Event.sendResult

/-- The bytes handed to the endpoint over a stretch of the log, in order. -/
def sentBytes (evs : List Event) : List Nat :=
  (evs.map Event.endpointBytes).flatten

theorem Defs.intWidth_ge (D : Defs) : 16 ≤ D.intWidth :=
  le_max_left 16 D.intBits

/-- A sum that is not negative and is below `2 ^ (intWidth - 1)` is computed
exactly. -/
theorem addInt_eq (D : Defs) (a b : Int) (h0 : 0 ≤ a + b)
    (h1 : a + b < ((2 ^ (D.intWidth - 1) : Nat) : Int)) : addInt D a b = a + b := by
  have hw := D.intWidth_ge
  have hA : 2 ^ D.intWidth = 2 * 2 ^ (D.intWidth - 1) := by
    rw [← pow_succ']
    congr 1
    omega
  obtain ⟨v, hv⟩ : ∃ v : Nat, a + b = (v : Int) := ⟨(a + b).toNat, by omega⟩
  have hv1 : v < 2 ^ (D.intWidth - 1) := by
    rw [hv] at h1
    exact_mod_cast h1
  have hmodI : ((v : Int) % ((2 ^ D.intWidth : Nat) : Int)) = (v : Int) := by
    apply Int.emod_eq_of_lt
    · omega
    · have : v < 2 ^ D.intWidth := by omega
      exact_mod_cast this
  have hmodN : v % 2 ^ D.intWidth = v := Nat.mod_eq_of_lt (by omega)
  unfold addInt toUnsigned toSigned
  rw [hv, hmodI, Int.toNat_ofNat, hmodN, if_pos hv1]

/-- Sums up to 64, the size of one transaction, are computed exactly. -/
theorem addInt_small (D : Defs) (a b : Int) (h0 : 0 ≤ a + b) (h1 : a + b ≤ 64) :
    addInt D a b = a + b := by
  apply addInt_eq D a b h0
  have hw := D.intWidth_ge
  have : 2 ^ 15 ≤ 2 ^ (D.intWidth - 1) := Nat.pow_le_pow_right (by norm_num) (by omega)
  have h2 : ((2 ^ 15 : Nat) : Int) ≤ ((2 ^ (D.intWidth - 1) : Nat) : Int) := by
    exact_mod_cast this
  have h3 : ((2 ^ 15 : Nat) : Int) = 32768 := by norm_num
  omega

/-- C6: for every payload, every length and every transport, `SendReport` with
id 0 is `SendReportNoID`: the same result, the same log (so the same writes,
with the same endpoint and flags, bytes and length) and the same driver. -/
theorem send_report_zero_id (D : Defs) (t : Transport) (s : Sys) (data : List Nat) (n : Int) :
    HIDD.SendReport D t s 0 data n = Except.ok (HIDD.SendReportNoID D t s data n) := by
  simp [HIDD.SendReport]

theorem merge_buffer_read (id : Nat) (data : List Nat) (n : Nat) (hn : data.length = n) :
    readBuf (memcpyAt ((List.replicate 64 0).set 0 id) 1 data n) ((n : Int) + 1) = id :: data := by
  have e : ((n : Int) + 1).toNat = n + 1 := by omega
  have e2 : (List.replicate 64 0).set 0 id = id :: List.replicate 63 0 := rfl
  subst hn
  simp [readBuf, memcpyAt, e, e2]

/-- C7: for an id from 1 up, a payload of `n` bytes with id and payload
together within the 64 bytes of one transaction, and a transport that takes
every write in full, `SendReport` returns `n + 1` and the bytes it hands to
the endpoint, put end to end, are the id followed by the payload. This holds
for any two builds `D₁` and `D₂`, so for the merged-buffer one
(`ARDUINO_ARCH_SAMD`) and the split one alike. -/
theorem send_report_frames_id (D₁ D₂ : Defs) (t : Transport) (hacc : t.AcceptsAll) (s : Sys)
    (id : Nat) (hid : 1 ≤ id) (data : List Nat) (n : Nat) (hn : data.length = n)
    (hmax : n + 1 ≤ 64) :
    ∃ evs₁ evs₂,
      HIDD.SendReport D₁ t s id data n
        = Except.ok ((n : Int) + 1, { s with trace := s.trace ++ evs₁ }) ∧
      HIDD.SendReport D₂ t s id data n
        = Except.ok ((n : Int) + 1, { s with trace := s.trace ++ evs₂ }) ∧
      sentBytes evs₁ = id :: data ∧ sentBytes evs₂ = id :: data := by
  have key : ∀ D : Defs, ∃ evs,
      HIDD.SendReport D t s id data n
        = Except.ok ((n : Int) + 1, { s with trace := s.trace ++ evs }) ∧
      sentBytes evs = id :: data := by
    intro D
    have h0 : id ≠ 0 := by omega
    have hrd : readBuf data (n : Int) = data := by
      rw [readBuf_natCast, ← hn, List.take_length]
    by_cases hm : D.ARDUINO_ARCH_SAMD = true
    · have hb : ¬ ((n : Int) < 0 ∨ (64 : Int) < 1 + (n : Int)) := by omega
      refine ⟨[Event.send s.hid.pluggedEndpoint (id :: data) ((n : Int) + 1) ((n : Int) + 1)],
        ?_, ?_⟩
      · simp only [HIDD.SendReport, if_neg h0, hm, if_true, HIDD.SendReportMerged, if_neg hb,
          Int.toNat_ofNat, merge_buffer_read id data n hn, hacc _ _ _ _]
      · simp [sentBytes, Event.endpointBytes]
    · have hm' : D.ARDUINO_ARCH_SAMD = false := by simpa using hm
      refine ⟨[Event.send s.hid.pluggedEndpoint [id] 1 1,
        Event.send (s.hid.pluggedEndpoint ||| D.TRANSFER_RELEASE) data (n : Int) (n : Int)],
        ?_, ?_⟩
      · have h1 : ¬ ((1 : Int) < 0) := by omega
        have h2 : ¬ ((n : Int) < 0) := by omega
        have hsum : addInt D 1 (n : Int) = (n : Int) + 1 := by
          rw [addInt_small D 1 (n : Int) (by omega) (by omega), add_comm]
        simp only [HIDD.SendReport, if_neg h0, hm', HIDD.SendReportSplit, hacc _ _ _ _,
          if_neg h1, if_neg h2, hrd, List.append_assoc, List.singleton_append,
          Bool.false_eq_true, if_false, hsum]
      · simp [sentBytes, Event.endpointBytes]
  obtain ⟨evs₁, h₁, b₁⟩ := key D₁
  obtain ⟨evs₂, h₂, b₂⟩ := key D₂
  exact ⟨evs₁, evs₂, h₁, h₂, b₁, b₂⟩

theorem okTransport_acceptsAll (incoming : List Nat) : (okTransport incoming).AcceptsAll :=
  fun _ _ _ _ => rfl

theorem send_report_frames_id_witness :
    ∃ evs₁ evs₂,
      HIDD.SendReport samdDefs (okTransport []) ⟨keyboard samdDefs, []⟩ 2 [0, 0, 4] (3 : Nat)
        = Except.ok (((3 : Nat) : Int) + 1, { (⟨keyboard samdDefs, []⟩ : Sys) with
            trace := (⟨keyboard samdDefs, []⟩ : Sys).trace ++ evs₁ }) ∧
      HIDD.SendReport avrDefs (okTransport []) ⟨keyboard samdDefs, []⟩ 2 [0, 0, 4] (3 : Nat)
        = Except.ok (((3 : Nat) : Int) + 1, { (⟨keyboard samdDefs, []⟩ : Sys) with
            trace := (⟨keyboard samdDefs, []⟩ : Sys).trace ++ evs₂ }) ∧
      sentBytes evs₁ = 2 :: [0, 0, 4] ∧ sentBytes evs₂ = 2 :: [0, 0, 4] :=
  send_report_frames_id samdDefs avrDefs (okTransport []) (okTransport_acceptsAll [])
    ⟨keyboard samdDefs, []⟩ 2 (by decide) [0, 0, 4] 3 rfl (by decide)

/-- The first negative number of a list of results. -/
def firstFailure (rs : List Int) : Option Int :=
  rs.find? (fun r => decide (r < 0))

theorem one_write_props (ep : Nat) (bytes : List Nat) (len r : Int) :
    [Event.send ep bytes len r] ≠ [] ∧
    (∀ e ∈ [Event.send ep bytes len r], ∃ ep' bytes' len' r', e = Event.send ep' bytes' len' r') ∧
    (∀ x ∈ (sendResults [Event.send ep bytes len r]).dropLast, 0 ≤ x) ∧
    (∀ c, firstFailure (sendResults [Event.send ep bytes len r]) = some c → r = c) ∧
    (firstFailure (sendResults [Event.send ep bytes len r]) = none →
      r = (sendResults [Event.send ep bytes len r]).sum) := by
  refine ⟨by simp, ?_, by simp [sendResults, Event.sendResult], ?_, ?_⟩
  · intro e he
    simp only [List.mem_singleton] at he
    exact ⟨_, _, _, _, he⟩
  · intro c hc
    by_cases h : r < 0
    · simpa [sendResults, Event.sendResult, firstFailure, List.find?_cons, h] using hc
    · simp [sendResults, Event.sendResult, firstFailure, List.find?_cons, h] at hc
  · intro _
    simp [sendResults, Event.sendResult]

theorem two_write_props (D : Defs) (ep₁ ep₂ : Nat) (b₁ b₂ : List Nat) (l₁ l₂ r₁ r₂ : Int)
    (h₁ : ¬ r₁ < 0) :
    [Event.send ep₁ b₁ l₁ r₁, Event.send ep₂ b₂ l₂ r₂] ≠ [] ∧
    (∀ e ∈ [Event.send ep₁ b₁ l₁ r₁, Event.send ep₂ b₂ l₂ r₂],
      ∃ ep' bytes' len' r', e = Event.send ep' bytes' len' r') ∧
    (∀ x ∈ (sendResults [Event.send ep₁ b₁ l₁ r₁, Event.send ep₂ b₂ l₂ r₂]).dropLast, 0 ≤ x) ∧
    (∀ c, firstFailure (sendResults [Event.send ep₁ b₁ l₁ r₁, Event.send ep₂ b₂ l₂ r₂]) = some c →
      (if r₂ < 0 then r₂ else addInt D r₁ r₂) = c) ∧
    (firstFailure (sendResults [Event.send ep₁ b₁ l₁ r₁, Event.send ep₂ b₂ l₂ r₂]) = none →
      (sendResults [Event.send ep₁ b₁ l₁ r₁, Event.send ep₂ b₂ l₂ r₂]).sum
        < ((2 ^ (D.intWidth - 1) : Nat) : Int) →
      (if r₂ < 0 then r₂ else addInt D r₁ r₂)
        = (sendResults [Event.send ep₁ b₁ l₁ r₁, Event.send ep₂ b₂ l₂ r₂]).sum) := by
  refine ⟨by simp, ?_, ?_, ?_, ?_⟩
  · intro e he
    simp only [List.mem_cons, List.mem_singleton, List.not_mem_nil, or_false] at he
    rcases he with he | he
    · exact ⟨_, _, _, _, he⟩
    · exact ⟨_, _, _, _, he⟩
  · intro x hx
    simp only [sendResults, List.filterMap_cons, Event.sendResult, List.filterMap_nil,
      List.dropLast_cons₂, List.dropLast_single, List.mem_singleton] at hx
    omega
  · intro c hc
    by_cases h₂ : r₂ < 0
    · simpa [sendResults, Event.sendResult, firstFailure, List.find?_cons, h₁, h₂] using hc
    · simp [sendResults, Event.sendResult, firstFailure, List.find?_cons, h₁, h₂] at hc
  · intro hnone hfit
    by_cases h₂ : r₂ < 0
    · simp [sendResults, Event.sendResult, firstFailure, List.find?_cons, h₁, h₂] at hnone
    · have hsum : (sendResults [Event.send ep₁ b₁ l₁ r₁, Event.send ep₂ b₂ l₂ r₂]).sum
          = r₁ + r₂ := by
        simp [sendResults, Event.sendResult]
      rw [hsum] at hfit
      rw [if_neg h₂, hsum]
      exact addInt_eq D r₁ r₂ (by omega) hfit

/-- An accept-all stack on the 16-bit AVR build, id 2, a payload of 32767
bytes: the id write returns 1, the payload write returns 32767, neither
fails, and `SendReport` returns -32768, not their sum 32768. C8, as written,
fails here. -/
theorem send_report_sum_leaves_int :
    HIDD.SendReport avrDefs (okTransport []) ⟨keyboard avrDefs, []⟩ 2
        (List.replicate 32767 0) 32767
      = Except.ok (-32768, ⟨keyboard avrDefs,
          [Event.send 3 [2] 1 1,
           Event.send (3 ||| 0x40) (readBuf (List.replicate 32767 0) 32767) 32767 32767]⟩) ∧
    sendResults [Event.send 3 [2] 1 1,
      Event.send (3 ||| 0x40) (readBuf (List.replicate 32767 0) 32767) 32767 32767]
      = [1, 32767] ∧
    firstFailure [1, 32767] = none ∧
    ¬ ((-32768 : Int) = ([1, 32767] : List Int).sum) := by
  refine ⟨?_, rfl, by decide, by decide⟩
  have hsum : addInt avrDefs 1 32767 = -32768 := by decide
  simp only [HIDD.SendReport, HIDD.SendReportSplit, okTransport, hsum]
  rfl

/-- C8, amended: for a non-zero id and any transport, on the split build for
every length and on the merged build for every length the 64-byte buffer
holds, `SendReport` ends with a result; the calls it adds to the log are
endpoint writes, at least one; every write but the last one returned a
non-negative count, so nothing is written after a write that failed (on the
split build a failed id write is the only write); the result is the first
negative write result if there is one; and otherwise it is the sum of all
write results, on the merged build always (one write) and on the split build
whenever that sum is within the range of `int`. -/
theorem send_report_result (D : Defs) (t : Transport) (s : Sys) (id : Nat) (data : List Nat)
    (n : Int) (hid : id ≠ 0)
    (hfit : D.ARDUINO_ARCH_SAMD = true → 0 ≤ n ∧ n + 1 ≤ 64) :
    ∃ ret evs,
      HIDD.SendReport D t s id data n = Except.ok (ret, { s with trace := s.trace ++ evs }) ∧
      evs ≠ [] ∧
      (∀ e ∈ evs, ∃ ep bytes len r, e = Event.send ep bytes len r) ∧
      (∀ r ∈ (sendResults evs).dropLast, 0 ≤ r) ∧
      (∀ c, firstFailure (sendResults evs) = some c → ret = c) ∧
      (firstFailure (sendResults evs) = none →
        (D.ARDUINO_ARCH_SAMD = true ∨
          (sendResults evs).sum < ((2 ^ (D.intWidth - 1) : Nat) : Int)) →
        ret = (sendResults evs).sum) ∧
      (D.ARDUINO_ARCH_SAMD = false →
        t.USB_Send s.trace s.hid.pluggedEndpoint [id] 1 < 0 → evs.length = 1) := by
  by_cases hm : D.ARDUINO_ARCH_SAMD = true
  · obtain ⟨h0, h1⟩ := hfit hm
    have hb : ¬ (n < 0 ∨ (64 : Int) < 1 + n) := by omega
    obtain ⟨pe, hpe⟩ : ∃ pe, pe = s.hid.pluggedEndpoint := ⟨_, rfl⟩
    obtain ⟨bs, hbs⟩ : ∃ bs,
        bs = readBuf (memcpyAt ((List.replicate 64 0).set 0 id) 1 data n.toNat) (n + 1) :=
      ⟨_, rfl⟩
    obtain ⟨r, hr⟩ : ∃ r, r = t.USB_Send s.trace pe bs (n + 1) := ⟨_, rfl⟩
    obtain ⟨p1, p2, p3, p4, p5⟩ := one_write_props pe bs (n + 1) r
    refine ⟨r, [Event.send pe bs (n + 1) r], ?_, p1, p2, p3, p4, fun hn _ => p5 hn, ?_⟩
    · simp only [HIDD.SendReport, if_neg hid, hm, if_true, HIDD.SendReportMerged, if_neg hb,
        hr, hbs, hpe]
    · intro hf
      rw [hm] at hf
      exact absurd hf (by simp)
  · have hm' : D.ARDUINO_ARCH_SAMD = false := by simpa using hm
    obtain ⟨pe, hpe⟩ : ∃ pe, pe = s.hid.pluggedEndpoint := ⟨_, rfl⟩
    obtain ⟨r₁, hr₁⟩ : ∃ r₁, r₁ = t.USB_Send s.trace pe [id] 1 := ⟨_, rfl⟩
    by_cases hf₁ : r₁ < 0
    · obtain ⟨p1, p2, p3, p4, p5⟩ := one_write_props pe [id] 1 r₁
      refine ⟨r₁, [Event.send pe [id] 1 r₁], ?_, p1, p2, p3, p4, fun hn _ => p5 hn,
        fun _ _ => rfl⟩
      rw [hr₁, hpe] at hf₁
      simp only [HIDD.SendReport, if_neg hid, hm', HIDD.SendReportSplit, if_pos hf₁,
        Bool.false_eq_true, if_false, hr₁, hpe]
    · obtain ⟨r₂, hr₂⟩ : ∃ r₂, r₂ = t.USB_Send (s.trace ++ [Event.send pe [id] 1 r₁])
          (pe ||| D.TRANSFER_RELEASE) (readBuf data n) n := ⟨_, rfl⟩
      obtain ⟨p1, p2, p3, p4, p5⟩ := two_write_props D pe (pe ||| D.TRANSFER_RELEASE) [id]
        (readBuf data n) 1 n r₁ r₂ hf₁
      refine ⟨if r₂ < 0 then r₂ else addInt D r₁ r₂,
        [Event.send pe [id] 1 r₁, Event.send (pe ||| D.TRANSFER_RELEASE) (readBuf data n) n r₂],
        ?_, p1, p2, p3, p4, ?_, ?_⟩
      · rw [hr₁, hpe] at hf₁
        simp only [HIDD.SendReport, if_neg hid, hm', HIDD.SendReportSplit, if_neg hf₁,
          Bool.false_eq_true, if_false, hr₂, hr₁, hpe, List.append_assoc,
          List.singleton_append]
        split <;> rfl
      · intro hn hor
        rcases hor with h | h
        · exact absurd h hm
        · exact p5 hn h
      · intro _ h
        rw [hr₁, hpe] at hf₁
        exact absurd h hf₁

/-- A stack that takes the first endpoint write and fails every later one
with `-5`. -/
def secondWriteFails : Transport where
  USB_SendControl := fun _ _ _ len => len
  USB_RecvControl := fun _ len => (len, [])
  USB_Send := fun tr _ _ len => if tr = [] then len else -5

theorem send_report_result_witness :
    (2 : Nat) ≠ 0 ∧
    ∃ ret evs,
      HIDD.SendReport avrDefs secondWriteFails ⟨keyboard avrDefs, []⟩ 2 [0, 0, 4] 3
        = Except.ok (ret, { (⟨keyboard avrDefs, []⟩ : Sys) with
            trace := (⟨keyboard avrDefs, []⟩ : Sys).trace ++ evs }) ∧
      (∀ r ∈ (sendResults evs).dropLast, 0 ≤ r) ∧
      (∀ c, firstFailure (sendResults evs) = some c → ret = c) :=
  ⟨by decide,
   match send_report_result avrDefs secondWriteFails ⟨keyboard avrDefs, []⟩ 2 [0, 0, 4] 3
      (by decide) (fun h => absurd h (by decide)) with
   | ⟨ret, evs, h, _, _, h3, h4, _, _⟩ => ⟨ret, evs, h, h3, h4⟩⟩

/-- What the witness above comes to: the id write is taken, the payload write
fails, and `SendReport` returns the failure code. -/
theorem send_report_second_write_fails :
    HIDD.SendReport avrDefs secondWriteFails ⟨keyboard avrDefs, []⟩ 2 [0, 0, 4] 3
      = Except.ok (-5, ⟨keyboard avrDefs,
          [Event.send 3 [2] 1 1, Event.send (3 ||| 0x40) [0, 0, 4] 3 (-5)]⟩) := by
  rfl

/-! ## The descriptor set -/

/-- C9: for every driver, every value of the interface counter and every
transport, whatever the send returns, `getInterface` leaves the counter one
higher (modulo 256, the counter being 8 bits wide), adds exactly one call to
the log, a control send whose payload is three records, an interface
descriptor, a HID descriptor and an endpoint descriptor in this order, returns
what that send returned, and leaves the driver as it was. -/
theorem getInterface_counter_and_records (D : Defs) (t : Transport) (s : Sys)
    (interfaceCount : Nat) :
    (HIDD.getInterface D t s interfaceCount).2.1 = (interfaceCount + 1) % 256 ∧
    (∃ n numEndpoints cls subClass protocol length addr attr packetSize interval flags len,
      (HIDD.getInterface D t s interfaceCount).2.2.trace = s.trace ++
        [Event.sendControl flags
          (Payload.records
            [Descriptor.D_INTERFACE n numEndpoints cls subClass protocol,
             Descriptor.D_HIDREPORT length,
             Descriptor.D_ENDPOINT addr attr packetSize interval])
          len (HIDD.getInterface D t s interfaceCount).1]) ∧
    (HIDD.getInterface D t s interfaceCount).2.2.hid = s.hid :=
  ⟨rfl, ⟨_, _, _, _, _, _, _, _, _, _, _, _, rfl⟩, rfl⟩

/-- C10, as written, fails in its last sentence: on a build without
`ARCH_HAS_CONFIGURABLE_EP_SIZES`, whose `USB_EP_SIZE` is 64, the boot keyboard
with report length 8 and interval 10 emits an endpoint record of size 64. -/
theorem keyboard_endpoint_size_on_fixed_build :
    (keyboard avrDefs).itfProtocol = avrDefs.HID_PROTOCOL_KEYBOARD ∧
    (keyboard avrDefs).inReportLen = 8 ∧
    (keyboard avrDefs).interval = 10 ∧
    (HIDD.getInterface avrDefs (okTransport []) ⟨keyboard avrDefs, []⟩ 0).2.2.trace =
      [Event.sendControl 0
        (Payload.records
          [Descriptor.D_INTERFACE 2 1 3 1 1,
           Descriptor.D_HIDREPORT 4,
           Descriptor.D_ENDPOINT 0x83 3 64 10])
        25 25] ∧
    ¬ ∃ n numEndpoints cls subClass protocol length addr attr interval flags len ret,
      (HIDD.getInterface avrDefs (okTransport []) ⟨keyboard avrDefs, []⟩ 0).2.2.trace =
        [Event.sendControl flags
          (Payload.records
            [Descriptor.D_INTERFACE n numEndpoints cls subClass protocol,
             Descriptor.D_HIDREPORT length,
             Descriptor.D_ENDPOINT addr attr 8 interval])
          len ret] := by
  refine ⟨rfl, rfl, rfl, rfl, ?_⟩
  rintro ⟨n, ne, cls, sub, pr, l, addr, attr, intv, fl, len, ret, h⟩
  have h' : [Event.sendControl 0
        (Payload.records
          [Descriptor.D_INTERFACE 2 1 3 1 1,
           Descriptor.D_HIDREPORT 4,
           Descriptor.D_ENDPOINT 0x83 3 64 10])
        25 25] = [Event.sendControl fl
          (Payload.records
            [Descriptor.D_INTERFACE n ne cls sub pr,
             Descriptor.D_HIDREPORT l,
             Descriptor.D_ENDPOINT addr attr 8 intv])
          len ret] := h
  simp at h'

/-- C10, amended: for every driver, the one control send of `getInterface`
carries an interface record with the assigned interface number, one endpoint,
class Human Interface Device, subclass BOOT if `itfProtocol` is not NONE and
NONE otherwise, and protocol `itfProtocol`; a HID record with `descriptorSize`;
and an endpoint record for interrupt IN on the assigned endpoint with the
configured interval, whose size is `inReportLen` on builds with
`ARCH_HAS_CONFIGURABLE_EP_SIZES` and `USB_EP_SIZE` (as a byte) on the others.
In particular a boot keyboard with report length 8 and interval 10 emits
subclass BOOT, protocol keyboard, interval 10, and endpoint size 8 on builds
with configurable endpoint sizes. -/
theorem getInterface_descriptor_fields (D : Defs) (t : Transport) (s : Sys)
    (interfaceCount : Nat) :
    ∃ subClass packetSize,
      (HIDD.getInterface D t s interfaceCount).2.2.trace = s.trace ++
        [Event.sendControl 0
          (Payload.records
            [Descriptor.D_INTERFACE s.hid.pluggedInterface 1 D.USB_DEVICE_CLASS_HUMAN_INTERFACE
               subClass s.hid.itfProtocol,
             Descriptor.D_HIDREPORT s.hid.descriptorSize,
             Descriptor.D_ENDPOINT (D.USB_ENDPOINT_IN s.hid.pluggedEndpoint)
               D.USB_ENDPOINT_TYPE_INTERRUPT packetSize s.hid.interval])
          (D.sizeofHIDDescriptor : Int) (HIDD.getInterface D t s interfaceCount).1] ∧
      (s.hid.itfProtocol ≠ D.HID_PROTOCOL_NONE → subClass = D.HID_SUBCLASS_BOOT) ∧
      (s.hid.itfProtocol = D.HID_PROTOCOL_NONE → subClass = D.HID_SUBCLASS_NONE) ∧
      (D.ARCH_HAS_CONFIGURABLE_EP_SIZES = true → packetSize = s.hid.inReportLen) ∧
      (D.ARCH_HAS_CONFIGURABLE_EP_SIZES = false → packetSize = D.USB_EP_SIZE % 256) ∧
      (s.hid.itfProtocol = D.HID_PROTOCOL_KEYBOARD →
        D.HID_PROTOCOL_KEYBOARD ≠ D.HID_PROTOCOL_NONE →
        s.hid.inReportLen = 8 → s.hid.interval = 10 →
          subClass = D.HID_SUBCLASS_BOOT ∧ s.hid.itfProtocol = D.HID_PROTOCOL_KEYBOARD ∧
          s.hid.interval = 10 ∧
          (D.ARCH_HAS_CONFIGURABLE_EP_SIZES = true → packetSize = 8)) := by
  refine ⟨_, _, rfl, ?_, ?_, ?_, ?_, ?_⟩
  · intro h
    rw [if_pos h]
  · intro h
    rw [if_neg (not_not.mpr h)]
  · intro h
    rw [if_pos h]
  · intro h
    rw [h]
    rfl
  · intro hk hne h8 h10
    refine ⟨?_, hk, h10, ?_⟩
    · rw [if_pos (by rw [hk]; exact hne)]
    · intro h
      rw [if_pos h, h8]

theorem getInterface_descriptor_fields_witness :
    (HIDD.getInterface sizedDefs failTransport ⟨keyboard sizedDefs, []⟩ 255).2.1 = 0 ∧
    ∃ subClass packetSize,
      (HIDD.getInterface sizedDefs failTransport ⟨keyboard sizedDefs, []⟩ 255).2.2.trace =
        [] ++ [Event.sendControl 0
          (Payload.records
            [Descriptor.D_INTERFACE 2 1 3 subClass 1,
             Descriptor.D_HIDREPORT 4,
             Descriptor.D_ENDPOINT 0x83 3 packetSize 10])
          25 (-1)] ∧
      subClass = 1 ∧ packetSize = 8 :=
  ⟨rfl,
   match getInterface_descriptor_fields sizedDefs failTransport ⟨keyboard sizedDefs, []⟩ 255 with
   | ⟨subClass, packetSize, h, _, _, _, _, hk⟩ =>
     ⟨subClass, packetSize, h, (hk rfl (by decide) rfl rfl).1,
       (hk rfl (by decide) rfl rfl).2.2.2 rfl⟩⟩

/-! ## The report descriptor -/

/-- The standard request code GET_DESCRIPTOR of USB 2.0 (table 9-4). `HIDD.cpp`
never mentions it. -/
def GET_DESCRIPTOR : Nat := 6

/-- A standard device-to-host interface request for interface 2 whose high
value byte names the HID report descriptor, with request code `code` and
length `len`. -/
def reportDescriptorRequest (D : Defs) (code len : Nat) : USBSetup :=
  { bmRequestType := D.REQUEST_DEVICETOHOST_STANDARD_INTERFACE, bRequest := code,
    wValueL := 0, wValueH := D.HID_REPORT_DESCRIPTOR_TYPE, wIndex := 2, wLength := len }

/-- C11, as written, fails: a request whose code is not GET_DESCRIPTOR (here 0)
and which meets the other conditions gets the report descriptor sent and a
non-zero result. -/
theorem getDescriptor_ignores_request_code :
    (reportDescriptorRequest avrDefs 0 4).bRequest ≠ GET_DESCRIPTOR ∧
    HIDD.getDescriptor avrDefs (okTransport []) ⟨keyboard avrDefs, []⟩
        (reportDescriptorRequest avrDefs 0 4)
      = (4, ⟨keyboard avrDefs, [Event.sendControl 0x80 (Payload.bytes [5, 1, 9, 6]) 4 4]⟩) ∧
    ¬ HIDD.getDescriptor avrDefs (okTransport []) ⟨keyboard avrDefs, []⟩
        (reportDescriptorRequest avrDefs 0 4)
      = (0, ⟨keyboard avrDefs, []⟩) := by
  decide

/-- C11, amended: `getDescriptor` looks at the request type, the high value
byte and the index only. If the type is not standard device-to-host interface,
or the high value byte is not the HID report descriptor type, or the index is
not the assigned interface, it returns 0 and the driver and the log are
unchanged; so a call that adds to the log met all three conditions. Two
requests that agree on these three fields are treated alike, whatever their
request codes. -/
theorem getDescriptor_filter (D : Defs) (t : Transport) (s : Sys) (r : USBSetup) :
    ((r.bmRequestType ≠ D.REQUEST_DEVICETOHOST_STANDARD_INTERFACE ∨
        r.wValueH ≠ D.HID_REPORT_DESCRIPTOR_TYPE ∨
        r.wIndex ≠ s.hid.pluggedInterface) →
      HIDD.getDescriptor D t s r = (0, s)) ∧
    ((HIDD.getDescriptor D t s r).2.trace ≠ s.trace →
      r.bmRequestType = D.REQUEST_DEVICETOHOST_STANDARD_INTERFACE ∧
      r.wValueH = D.HID_REPORT_DESCRIPTOR_TYPE ∧
      r.wIndex = s.hid.pluggedInterface) ∧
    (∀ r' : USBSetup, r'.bmRequestType = r.bmRequestType → r'.wValueH = r.wValueH →
      r'.wIndex = r.wIndex → HIDD.getDescriptor D t s r' = HIDD.getDescriptor D t s r) := by
  have hfail : (r.bmRequestType ≠ D.REQUEST_DEVICETOHOST_STANDARD_INTERFACE ∨
        r.wValueH ≠ D.HID_REPORT_DESCRIPTOR_TYPE ∨
        r.wIndex ≠ s.hid.pluggedInterface) →
      HIDD.getDescriptor D t s r = (0, s) := by
    intro h
    unfold HIDD.getDescriptor
    by_cases h1 : r.bmRequestType ≠ D.REQUEST_DEVICETOHOST_STANDARD_INTERFACE
    · rw [if_pos h1]
    · rw [if_neg h1]
      by_cases h2 : r.wValueH ≠ D.HID_REPORT_DESCRIPTOR_TYPE
      · rw [if_pos h2]
      · rw [if_neg h2]
        by_cases h3 : r.wIndex ≠ s.hid.pluggedInterface
        · rw [if_pos h3]
        · rcases h with h | h | h
          · exact absurd h h1
          · exact absurd h h2
          · exact absurd h h3
  refine ⟨hfail, ?_, ?_⟩
  · intro hne
    by_contra hcon
    apply hne
    have : r.bmRequestType ≠ D.REQUEST_DEVICETOHOST_STANDARD_INTERFACE ∨
        r.wValueH ≠ D.HID_REPORT_DESCRIPTOR_TYPE ∨
        r.wIndex ≠ s.hid.pluggedInterface := by
      by_contra hall
      apply hcon
      simp only [not_or, ne_eq, not_not] at hall
      exact hall
    rw [hfail this]
  · intro r' e1 e2 e3
    unfold HIDD.getDescriptor
    rw [e1, e2, e3]

theorem getDescriptor_filter_witness :
    (reportDescriptorRequest avrDefs GET_DESCRIPTOR 4).wIndex
      ≠ (⟨{ keyboard avrDefs with pluggedInterface := 5 }, []⟩ : Sys).hid.pluggedInterface ∧
    HIDD.getDescriptor avrDefs (okTransport [])
        ⟨{ keyboard avrDefs with pluggedInterface := 5 }, []⟩
        (reportDescriptorRequest avrDefs GET_DESCRIPTOR 4)
      = (0, ⟨{ keyboard avrDefs with pluggedInterface := 5 }, []⟩) :=
  ⟨by decide,
   (getDescriptor_filter avrDefs (okTransport [])
      ⟨{ keyboard avrDefs with pluggedInterface := 5 }, []⟩
      (reportDescriptorRequest avrDefs GET_DESCRIPTOR 4)).1 (Or.inr (Or.inr (by decide)))⟩

/-- C12: for a request that `getDescriptor` matches, whatever its `wLength`,
the log grows by exactly one call, a control send that points at the report
descriptor given at construction with length `descriptorSize` (so it carries
the whole descriptor when `descriptorSize` is its length), the result is what
that send returned, and the driver is unchanged. -/
theorem getDescriptor_sends_report_descriptor (D : Defs) (t : Transport) (s : Sys)
    (r : USBSetup)
    (ht : r.bmRequestType = D.REQUEST_DEVICETOHOST_STANDARD_INTERFACE)
    (hv : r.wValueH = D.HID_REPORT_DESCRIPTOR_TYPE)
    (hi : r.wIndex = s.hid.pluggedInterface) :
    ∃ e ret,
      ret = t.USB_SendControl s.trace D.TRANSFER_PGM (Payload.bytes s.hid.reportDesc)
        (s.hid.descriptorSize : Int) ∧
      e = Event.sendControl D.TRANSFER_PGM (Payload.bytes s.hid.reportDesc)
        (s.hid.descriptorSize : Int) ret ∧
      HIDD.getDescriptor D t s r = (ret, { s with trace := s.trace ++ [e] }) ∧
      (s.hid.reportDesc.length = s.hid.descriptorSize → e.controlBytes = s.hid.reportDesc) := by
  refine ⟨_, _, rfl, rfl, ?_, ?_⟩
  · simp [HIDD.getDescriptor, ht, hv, hi]
  · intro hl
    simp only [Event.controlBytes]
    rw [readBuf_natCast, ← hl, List.take_length]

theorem getDescriptor_sends_report_descriptor_witness :
    ∃ e ret,
      ret = failTransport.USB_SendControl [] avrDefs.TRANSFER_PGM
        (Payload.bytes (keyboard avrDefs).reportDesc) ((keyboard avrDefs).descriptorSize : Int) ∧
      e = Event.sendControl avrDefs.TRANSFER_PGM (Payload.bytes (keyboard avrDefs).reportDesc)
        ((keyboard avrDefs).descriptorSize : Int) ret ∧
      HIDD.getDescriptor avrDefs failTransport ⟨keyboard avrDefs, []⟩
          (reportDescriptorRequest avrDefs GET_DESCRIPTOR 1)
        = (ret, { (⟨keyboard avrDefs, []⟩ : Sys) with trace := [] ++ [e] }) ∧
      ((keyboard avrDefs).reportDesc.length = (keyboard avrDefs).descriptorSize →
        e.controlBytes = (keyboard avrDefs).reportDesc) :=
  getDescriptor_sends_report_descriptor avrDefs failTransport ⟨keyboard avrDefs, []⟩
    (reportDescriptorRequest avrDefs GET_DESCRIPTOR 1) rfl rfl rfl

/-! ## The dispatch table -/

/-- The requests the dispatch table of the specification lists as handled, in
its words: the request names the assigned interface and is one of
device-to-host class-interface GET_REPORT; GET_PROTOCOL with capability not
NONE; GET_IDLE; host-to-device class-interface SET_PROTOCOL with capability
not NONE; SET_IDLE; SET_REPORT of type OUTPUT within the scratch capacity. -/
def SpecHandled (D : Defs) (h : HIDD) (r : USBSetup) : Prop :=
  r.wIndex = h.pluggedInterface ∧
  ((r.bmRequestType = D.REQUEST_DEVICETOHOST_CLASS_INTERFACE ∧ r.bRequest = D.HID_GET_REPORT) ∨
   (r.bmRequestType = D.REQUEST_DEVICETOHOST_CLASS_INTERFACE ∧ r.bRequest = D.HID_GET_PROTOCOL ∧
      h.itfProtocol ≠ D.HID_PROTOCOL_NONE) ∨
   (r.bmRequestType = D.REQUEST_DEVICETOHOST_CLASS_INTERFACE ∧ r.bRequest = D.HID_GET_IDLE) ∨
   (r.bmRequestType = D.REQUEST_HOSTTODEVICE_CLASS_INTERFACE ∧ r.bRequest = D.HID_SET_PROTOCOL ∧
      h.itfProtocol ≠ D.HID_PROTOCOL_NONE) ∨
   (r.bmRequestType = D.REQUEST_HOSTTODEVICE_CLASS_INTERFACE ∧ r.bRequest = D.HID_SET_IDLE) ∨
   (r.bmRequestType = D.REQUEST_HOSTTODEVICE_CLASS_INTERFACE ∧ r.bRequest = D.HID_SET_REPORT ∧
      r.wValueH = D.HID_REPORT_TYPE_OUTPUT ∧ r.wLength ≤ h.outReport.length))

instance (D : Defs) (h : HIDD) (r : USBSetup) : Decidable (SpecHandled D h r) := by
  unfold SpecHandled
  infer_instance

/-- The `SET_REPORT` path of `setup`. -/
theorem setup_set_report (D : Defs) (hD : D.WellFormed) (t : Transport) (s : Sys)
    (r : USBSetup)
    (hcap : s.hid.outReport.length < 2 ^ (D.intBits - 1))
    (hlen : r.wLength < 65536)
    (hi : r.wIndex = s.hid.pluggedInterface)
    (ht : r.bmRequestType = D.REQUEST_HOSTTODEVICE_CLASS_INTERFACE)
    (hr : r.bRequest = D.HID_SET_REPORT) :
    HIDD.setup D t s r =
      if r.wValueH = D.HID_REPORT_TYPE_OUTPUT ∧ r.wLength ≤ s.hid.outReport.length then
        (true,
          { hid := { s.hid with
              outReport := (t.USB_RecvControl s.trace (r.wLength : Int)).2.take r.wLength ++
                s.hid.outReport.drop
                  ((t.USB_RecvControl s.trace (r.wLength : Int)).2.take r.wLength).length },
            trace := s.trace ++
              [Event.recvControl (r.wLength : Int)
                 (t.USB_RecvControl s.trace (r.wLength : Int)).1
                 ((t.USB_RecvControl s.trace (r.wLength : Int)).2.take r.wLength),
               Event.setReportCB
                 ((t.USB_RecvControl s.trace (r.wLength : Int)).2.take r.wLength ++
                   s.hid.outReport.drop
                     ((t.USB_RecvControl s.trace (r.wLength : Int)).2.take r.wLength).length)
                 (r.wLength : Int)] })
      else (false, s) := by
  have hc := hD.codes_ne
  have htn := hD.types_ne
  obtain ⟨hchk, hval⟩ := length_check D.intBits D.sizeBits r.wLength s.hid.outReport.length
    hD.2.2.1 hD.2.2.2 hlen hcap
  by_cases hv : r.wValueH = D.HID_REPORT_TYPE_OUTPUT
  · by_cases hle : r.wLength ≤ s.hid.outReport.length
    · have hchk' : toUnsigned D.sizeBits (r.wLength : Int) ≤ s.hid.outReport.length := by
        rw [← hval hle]
        exact hchk.2 hle
      rw [if_pos ⟨hv, hle⟩]
      simp only [HIDD.setup, HIDD.setupHostToDevice, hi, ht, hr, hv, hval hle, hchk',
        readBuf_natCast, memcpyAt_zero_full, if_true, if_neg (Ne.symm htn), if_neg hc.2.2.2.1.1,
        if_neg hc.2.2.2.1.2, ne_eq, not_true_eq_false, if_false]
    · have hno : ¬ toUnsigned D.sizeBits (toSigned D.intBits r.wLength)
          ≤ s.hid.outReport.length := fun h => hle (hchk.1 h)
      rw [if_neg (fun h => hle h.2)]
      simp [HIDD.setup, HIDD.setupHostToDevice, hi, ht, hr, hv, Ne.symm htn, hc.2.2.2.1.1,
        hc.2.2.2.1.2, hno]
  · rw [if_neg (fun h => hv h.1)]
    simp [HIDD.setup, HIDD.setupHostToDevice, hi, ht, hr, hv, Ne.symm htn, hc.2.2.2.1.1,
      hc.2.2.2.1.2]

/-- Requests for the driver's interface that are none of the six the code
names fall through to `return false`. -/
theorem setup_fallthrough (D : Defs) (hD : D.WellFormed) (t : Transport) (s : Sys)
    (r : USBSetup)
    (hget : r.bmRequestType = D.REQUEST_DEVICETOHOST_CLASS_INTERFACE →
      r.bRequest ≠ D.HID_GET_REPORT ∧ r.bRequest ≠ D.HID_GET_PROTOCOL ∧
      r.bRequest ≠ D.HID_GET_IDLE)
    (hset : r.bmRequestType = D.REQUEST_HOSTTODEVICE_CLASS_INTERFACE →
      r.bRequest ≠ D.HID_SET_PROTOCOL ∧ r.bRequest ≠ D.HID_SET_IDLE ∧
      r.bRequest ≠ D.HID_SET_REPORT) :
    HIDD.setup D t s r = (false, s) := by
  have htn := hD.types_ne
  by_cases hi : r.wIndex = s.hid.pluggedInterface
  · by_cases h1 : r.bmRequestType = D.REQUEST_DEVICETOHOST_CLASS_INTERFACE
    · obtain ⟨a, b, c⟩ := hget h1
      simp [HIDD.setup, HIDD.setupDeviceToHost, hi, h1, a, b, c, htn]
    · by_cases h2 : r.bmRequestType = D.REQUEST_HOSTTODEVICE_CLASS_INTERFACE
      · obtain ⟨a, b, c⟩ := hset h2
        simp [HIDD.setup, HIDD.setupHostToDevice, hi, h2, a, b, c, Ne.symm htn]
      · simp [HIDD.setup, hi, h1, h2]
  · exact setup_other_interface D t s r hi

/-- C13: `setup` returns handled exactly for the requests the dispatch table
lists (`SpecHandled`), and for every other request it returns not handled with
the driver and the log of calls exactly as they were. The header constants are
assumed distinct where the code compares them, `wLength` is a 16-bit value and
`sizeof(outReport)` fits an `int`. -/
theorem setup_handled_iff (D : Defs) (hD : D.WellFormed) (t : Transport) (s : Sys)
    (r : USBSetup)
    (hcap : s.hid.outReport.length < 2 ^ (D.intBits - 1))
    (hlen : r.wLength < 65536) :
    ((HIDD.setup D t s r).1 = true ↔ SpecHandled D s.hid r) ∧
    (¬ SpecHandled D s.hid r → HIDD.setup D t s r = (false, s)) := by
  have htn := hD.types_ne
  obtain ⟨⟨a1, a2, a3, a4, a5⟩, ⟨b1, b2, b3, b4⟩, ⟨c1, c2, c3⟩, ⟨d1, d2⟩, e1⟩ := hD.codes_ne
  by_cases hi : r.wIndex = s.hid.pluggedInterface
  swap
  · rw [setup_other_interface D t s r hi]
    simp [SpecHandled, hi]
  by_cases h1 : r.bmRequestType = D.REQUEST_DEVICETOHOST_CLASS_INTERFACE
  · by_cases g1 : r.bRequest = D.HID_GET_REPORT
    · rw [setup_get_report D t s r hi h1 g1]
      simp [SpecHandled, hi, h1, g1]
    by_cases g2 : r.bRequest = D.HID_GET_PROTOCOL
    · rw [setup_get_protocol D hD t s r hi h1 g2]
      by_cases hn : s.hid.itfProtocol = D.HID_PROTOCOL_NONE
      · simp [SpecHandled, hi, h1, g2, hn, htn, Ne.symm a2, Ne.symm b1]
      · simp [SpecHandled, hi, h1, g2, hn, htn, Ne.symm a2, Ne.symm b1]
    by_cases g3 : r.bRequest = D.HID_GET_IDLE
    · rw [setup_get_idle D hD t s r hi h1 g3]
      simp [SpecHandled, hi, h1, g3]
    · rw [setup_fallthrough D hD t s r (fun _ => ⟨g1, g2, g3⟩) (fun h => absurd (h1 ▸ h) htn)]
      simp [SpecHandled, h1, g1, g2, g3, htn]
  by_cases h2 : r.bmRequestType = D.REQUEST_HOSTTODEVICE_CLASS_INTERFACE
  · by_cases q1 : r.bRequest = D.HID_SET_PROTOCOL
    · rw [setup_set_protocol D t s r hD hi h2 q1]
      by_cases hn : s.hid.itfProtocol = D.HID_PROTOCOL_NONE
      · simp [SpecHandled, hi, h2, q1, hn, Ne.symm htn, Ne.symm e1, Ne.symm d2]
      · simp [SpecHandled, hi, h2, q1, hn, Ne.symm htn, Ne.symm e1, Ne.symm d2]
    by_cases q2 : r.bRequest = D.HID_SET_IDLE
    · rw [setup_set_idle D hD t s r hi h2 q2]
      simp [SpecHandled, hi, h2, q2]
    by_cases q3 : r.bRequest = D.HID_SET_REPORT
    · rw [setup_set_report D hD t s r hcap hlen hi h2 q3]
      by_cases hc : r.wValueH = D.HID_REPORT_TYPE_OUTPUT ∧ r.wLength ≤ s.hid.outReport.length
      · rw [if_pos hc]
        simp [SpecHandled, hi, h2, q3, hc.1, hc.2]
      · rw [if_neg hc]
        have hc' : r.wValueH = D.HID_REPORT_TYPE_OUTPUT → ¬ r.wLength ≤ s.hid.outReport.length :=
          fun hv hle => hc ⟨hv, hle⟩
        simp only [SpecHandled, hi, h2, q3, Ne.symm htn, d1, d2, false_and, true_and,
          or_false, false_or, Bool.false_eq_true, false_iff, not_and, implies_true, and_true]
        simpa using hc'
    · rw [setup_fallthrough D hD t s r (fun h => absurd h h1) (fun _ => ⟨q1, q2, q3⟩)]
      simp [SpecHandled, h1, h2, q1, q2, q3, Ne.symm htn]
  · rw [setup_fallthrough D hD t s r (fun h => absurd h h1) (fun h => absurd h h2)]
    simp [SpecHandled, h1, h2]

theorem setup_handled_iff_witness :
    SpecHandled samdDefs (keyboard samdDefs) (setReport samdDefs 8) ∧
    (HIDD.setup samdDefs (okTransport [1, 2, 3, 4, 5, 6, 7, 8]) ⟨keyboard samdDefs, []⟩
      (setReport samdDefs 8)).1 = true ∧
    ¬ SpecHandled samdDefs (keyboard samdDefs) (setReport samdDefs 9) ∧
    HIDD.setup samdDefs (okTransport [1, 2, 3, 4, 5, 6, 7, 8]) ⟨keyboard samdDefs, []⟩
      (setReport samdDefs 9) = (false, ⟨keyboard samdDefs, []⟩) :=
  have h8 := setup_handled_iff samdDefs samdDefs_wellFormed (okTransport [1, 2, 3, 4, 5, 6, 7, 8])
    ⟨keyboard samdDefs, []⟩ (setReport samdDefs 8) (by decide) (by decide)
  have h9 := setup_handled_iff samdDefs samdDefs_wellFormed (okTransport [1, 2, 3, 4, 5, 6, 7, 8])
    ⟨keyboard samdDefs, []⟩ (setReport samdDefs 9) (by decide) (by decide)
  ⟨by decide, h8.1.2 (by decide), by decide, h9.2 (by decide)⟩

/-! ## Failing primitives -/

/-- The result of a send or receive primitive, for the calls that return
one. -/
def Event.result : Event → Option Int
  | Event.sendControl _ _ _ ret => some ret
  | Event.recvControl _ ret _ => some ret
  | Event.send _ _ _ ret => some ret
  | _ => none

/-- Over the calls `evs` of one operation that returned `ret`: a primitive
that returned a negative result is the last call made, and its result is what
the operation returns. -/
def AbortsOnFailure (evs : List Event) (ret : Int) : Prop :=
  ∀ pre e post c, evs = pre ++ e :: post → e.result = some c → c < 0 → post = [] ∧ ret = c

theorem abortsOnFailure_nil (ret : Int) : AbortsOnFailure [] ret := by
  intro pre e post c h
  simp at h

theorem abortsOnFailure_single (e : Event) (ret : Int) (h : e.result = some ret) :
    AbortsOnFailure [e] ret := by
  intro pre e' post c heq hres _
  cases pre with
  | nil =>
    simp only [List.nil_append, List.cons.injEq] at heq
    obtain ⟨he, hp⟩ := heq
    subst he
    rw [h] at hres
    exact ⟨hp.symm, Option.some.inj hres⟩
  | cons x xs =>
    simp at heq

theorem abortsOnFailure_pair (e₁ e₂ : Event) (r₁ r₂ ret : Int)
    (h₁ : e₁.result = some r₁) (hok : ¬ r₁ < 0) (h₂ : e₂.result = some r₂)
    (hret : r₂ < 0 → ret = r₂) :
    AbortsOnFailure [e₁, e₂] ret := by
  intro pre e post c heq hres hc
  cases pre with
  | nil =>
    simp only [List.nil_append, List.cons.injEq] at heq
    obtain ⟨he, _⟩ := heq
    subst he
    rw [h₁] at hres
    have : r₁ = c := Option.some.inj hres
    omega
  | cons x xs =>
    cases xs with
    | nil =>
      simp only [List.cons_append, List.nil_append, List.cons.injEq] at heq
      obtain ⟨_, he, hp⟩ := heq
      subst he
      rw [h₂] at hres
      have hc' : r₂ = c := Option.some.inj hres
      subst hc'
      exact ⟨hp.symm, hret hc⟩
    | cons y ys =>
      simp at heq

/-- A GET_IDLE whose answer the stack refuses is reported as handled: the
claim C14 fails for `setup`. -/
theorem get_idle_handled_when_send_fails :
    HIDD.setup samdDefs failTransport ⟨keyboard samdDefs, []⟩ (getIdle samdDefs)
      = (true, ⟨keyboard samdDefs, [Event.sendControl 0x40 (Payload.bytes [0]) 1 (-1)]⟩) ∧
    (Event.sendControl 0x40 (Payload.bytes [0]) 1 (-1)).result = some (-1) ∧
    ((-1 : Int) < 0) ∧
    ¬ (HIDD.setup samdDefs failTransport ⟨keyboard samdDefs, []⟩ (getIdle samdDefs)).1
        = false := by
  decide

/-- What `setup` does when the receive of a SET_REPORT fails: the callback is
still called and the request is reported as handled. -/
theorem set_report_when_receive_fails :
    HIDD.setup samdDefs failTransport ⟨keyboard samdDefs, []⟩ (setReport samdDefs 2)
      = (true, ⟨keyboard samdDefs,
          [Event.recvControl 2 (-1) [], Event.setReportCB [0, 0, 0, 0, 0, 0, 0, 0] 2]⟩) := by
  decide

/-- C14, amended: for `getInterface`, `getDescriptor`, `SendReportNoID` and
`SendReport` and every transport, a primitive that returns a negative result
is the last call the operation makes and the operation returns that negative
result (`SendReport` on the merged build for the lengths its buffer holds).
`setup` returns a boolean and answers GET_IDLE, and GET_PROTOCOL with a
capability other than NONE, as handled whatever the transport returns. -/
theorem failure_is_propagated (D : Defs) (t : Transport) (s : Sys) :
    (∀ interfaceCount, ∃ evs,
      (HIDD.getInterface D t s interfaceCount).2.2.trace = s.trace ++ evs ∧
      AbortsOnFailure evs (HIDD.getInterface D t s interfaceCount).1) ∧
    (∀ r, ∃ evs,
      (HIDD.getDescriptor D t s r).2.trace = s.trace ++ evs ∧
      AbortsOnFailure evs (HIDD.getDescriptor D t s r).1) ∧
    (∀ data n, ∃ evs,
      (HIDD.SendReportNoID D t s data n).2.trace = s.trace ++ evs ∧
      AbortsOnFailure evs (HIDD.SendReportNoID D t s data n).1) ∧
    (∀ id data n, (D.ARDUINO_ARCH_SAMD = true → id ≠ 0 → 0 ≤ n ∧ n + 1 ≤ 64) →
      ∃ ret evs,
        HIDD.SendReport D t s id data n = Except.ok (ret, { s with trace := s.trace ++ evs }) ∧
        AbortsOnFailure evs ret) ∧
    (∀ r, D.WellFormed → r.wIndex = s.hid.pluggedInterface →
      r.bmRequestType = D.REQUEST_DEVICETOHOST_CLASS_INTERFACE →
      (r.bRequest = D.HID_GET_IDLE ∨
        (r.bRequest = D.HID_GET_PROTOCOL ∧ s.hid.itfProtocol ≠ D.HID_PROTOCOL_NONE)) →
      (HIDD.setup D t s r).1 = true) := by
  refine ⟨?_, ?_, ?_, ?_, ?_⟩
  · intro c
    exact ⟨_, rfl, abortsOnFailure_single _ _ rfl⟩
  · intro r
    by_cases hm : r.bmRequestType ≠ D.REQUEST_DEVICETOHOST_STANDARD_INTERFACE ∨
        r.wValueH ≠ D.HID_REPORT_DESCRIPTOR_TYPE ∨ r.wIndex ≠ s.hid.pluggedInterface
    · refine ⟨[], ?_, abortsOnFailure_nil _⟩
      have : HIDD.getDescriptor D t s r = (0, s) := by
        unfold HIDD.getDescriptor
        by_cases h1 : r.bmRequestType ≠ D.REQUEST_DEVICETOHOST_STANDARD_INTERFACE
        · rw [if_pos h1]
        · rw [if_neg h1]
          by_cases h2 : r.wValueH ≠ D.HID_REPORT_DESCRIPTOR_TYPE
          · rw [if_pos h2]
          · rw [if_neg h2]
            by_cases h3 : r.wIndex ≠ s.hid.pluggedInterface
            · rw [if_pos h3]
            · rcases hm with h | h | h
              · exact absurd h h1
              · exact absurd h h2
              · exact absurd h h3
      rw [this]
      simp
    · simp only [not_or, ne_eq, not_not] at hm
      obtain ⟨h1, h2, h3⟩ := hm
      refine ⟨[Event.sendControl D.TRANSFER_PGM (Payload.bytes s.hid.reportDesc)
        (s.hid.descriptorSize : Int)
        (t.USB_SendControl s.trace D.TRANSFER_PGM (Payload.bytes s.hid.reportDesc)
          (s.hid.descriptorSize : Int))], ?_, ?_⟩
      · simp [HIDD.getDescriptor, h1, h2, h3]
      · have : (HIDD.getDescriptor D t s r).1
            = t.USB_SendControl s.trace D.TRANSFER_PGM (Payload.bytes s.hid.reportDesc)
                (s.hid.descriptorSize : Int) := by
          simp [HIDD.getDescriptor, h1, h2, h3]
        rw [this]
        exact abortsOnFailure_single _ _ rfl
  · intro data n
    exact ⟨_, rfl, abortsOnFailure_single _ _ rfl⟩
  · intro id data n hfit
    by_cases hid : id = 0
    · refine ⟨_, [Event.send (s.hid.pluggedEndpoint ||| D.TRANSFER_RELEASE) (readBuf data n) n
        (t.USB_Send s.trace (s.hid.pluggedEndpoint ||| D.TRANSFER_RELEASE) (readBuf data n) n)],
        ?_, abortsOnFailure_single _ _ rfl⟩
      simp [HIDD.SendReport, hid, HIDD.SendReportNoID]
    · by_cases hm : D.ARDUINO_ARCH_SAMD = true
      · obtain ⟨h0, h1⟩ := hfit hm hid
        have hb : ¬ (n < 0 ∨ (64 : Int) < 1 + n) := by omega
        obtain ⟨bs, hbs⟩ : ∃ bs,
            bs = readBuf (memcpyAt ((List.replicate 64 0).set 0 id) 1 data n.toNat) (n + 1) :=
          ⟨_, rfl⟩
        refine ⟨_, [Event.send s.hid.pluggedEndpoint bs (n + 1)
          (t.USB_Send s.trace s.hid.pluggedEndpoint bs (n + 1))], ?_,
          abortsOnFailure_single _ _ rfl⟩
        simp only [HIDD.SendReport, if_neg hid, hm, if_true, HIDD.SendReportMerged, if_neg hb,
          hbs]
      · have hm' : D.ARDUINO_ARCH_SAMD = false := by simpa using hm
        obtain ⟨pe, hpe⟩ : ∃ pe, pe = s.hid.pluggedEndpoint := ⟨_, rfl⟩
        obtain ⟨r₁, hr₁⟩ : ∃ r₁, r₁ = t.USB_Send s.trace pe [id] 1 := ⟨_, rfl⟩
        by_cases hf₁ : r₁ < 0
        · refine ⟨r₁, [Event.send pe [id] 1 r₁], ?_, abortsOnFailure_single _ _ rfl⟩
          rw [hr₁, hpe] at hf₁
          simp only [HIDD.SendReport, if_neg hid, hm', HIDD.SendReportSplit, if_pos hf₁,
            Bool.false_eq_true, if_false, hr₁, hpe]
        · obtain ⟨r₂, hr₂⟩ : ∃ r₂, r₂ = t.USB_Send (s.trace ++ [Event.send pe [id] 1 r₁])
              (pe ||| D.TRANSFER_RELEASE) (readBuf data n) n := ⟨_, rfl⟩
          refine ⟨if r₂ < 0 then r₂ else addInt D r₁ r₂,
            [Event.send pe [id] 1 r₁,
             Event.send (pe ||| D.TRANSFER_RELEASE) (readBuf data n) n r₂],
            ?_, abortsOnFailure_pair _ _ r₁ r₂ _ rfl hf₁ rfl (fun h => if_pos h)⟩
          rw [hr₁, hpe] at hf₁
          simp only [HIDD.SendReport, if_neg hid, hm', HIDD.SendReportSplit, if_neg hf₁,
            Bool.false_eq_true, if_false, hr₂, hr₁, hpe, List.append_assoc,
            List.singleton_append]
          split <;> rfl
  · intro r hD hi ht hcode
    rcases hcode with hc | ⟨hc, hn⟩
    · rw [setup_get_idle D hD t s r hi ht hc]
    · rw [setup_get_protocol D hD t s r hi ht hc, if_neg hn]

theorem failure_is_propagated_witness :
    ∃ ret evs,
      HIDD.SendReport avrDefs failTransport ⟨keyboard avrDefs, []⟩ 2 [0, 0, 4] 3
        = Except.ok (ret, { (⟨keyboard avrDefs, []⟩ : Sys) with
            trace := (⟨keyboard avrDefs, []⟩ : Sys).trace ++ evs }) ∧
      AbortsOnFailure evs ret :=
  (failure_is_propagated avrDefs failTransport ⟨keyboard avrDefs, []⟩).2.2.2.1 2 [0, 0, 4] 3
    (fun h => absurd h (by decide))

/-- What the witness above comes to: the id write fails, nothing else is
written, and `SendReport` returns the failure code. -/
theorem send_report_first_write_fails :
    HIDD.SendReport avrDefs failTransport ⟨keyboard avrDefs, []⟩ 2 [0, 0, 4] 3
      = Except.ok (-1, ⟨keyboard avrDefs, [Event.send 3 [2] 1 (-1)]⟩) := by
  rfl

/-! ## What each operation leaves alone -/

/-- The fields set at construction and at plug-in time. -/
def HIDD.config (h : HIDD) : Nat × Nat × Nat × List Nat × Nat × Nat × Nat × Nat :=
  (h.itfProtocol, h.inReportLen, h.interval, h.reportDesc, h.descriptorSize,
   h.pluggedInterface, h.pluggedEndpoint, h.epType)

theorem sendByte_hid (D : Defs) (t : Transport) (s : Sys) (b : Nat) :
    (sendByte D t s b).hid = s.hid := by
  unfold sendByte
  split_ifs <;> rfl

/-- The device-to-host block changes no field of the driver. -/
theorem setupDeviceToHost_hid (D : Defs) (t : Transport) (s : Sys) (r : USBSetup)
    (res : Bool × Sys) (h : HIDD.setupDeviceToHost D t s r = some res) :
    res.2.hid = s.hid := by
  unfold HIDD.setupDeviceToHost at h
  dsimp only at h
  split_ifs at h <;> cases h <;> simp [sendByte_hid]

/-- The host-to-device block: the configuration stays; `protocol` changes only
on a handled SET_PROTOCOL, which leaves `idle` alone, and `idle` only on a
handled SET_IDLE, which leaves `protocol` alone. -/
theorem setupHostToDevice_frame (D : Defs) (t : Transport) (s : Sys) (r : USBSetup)
    (res : Bool × Sys) (h : HIDD.setupHostToDevice D t s r = some res) :
    res.2.hid.config = s.hid.config ∧
    (res.2.hid.protocol = s.hid.protocol ∨
      (res.1 = true ∧ r.bRequest = D.HID_SET_PROTOCOL ∧ res.2.hid.idle = s.hid.idle)) ∧
    (res.2.hid.idle = s.hid.idle ∨
      (res.1 = true ∧ r.bRequest = D.HID_SET_IDLE ∧ res.2.hid.protocol = s.hid.protocol)) := by
  unfold HIDD.setupHostToDevice at h
  dsimp only at h
  split_ifs at h <;> cases h <;> simp [HIDD.config, *]

/-- One call of `setup`: the configuration stays; `protocol` changes only when
a host-to-device class-interface SET_PROTOCOL is handled, and then `idle`
stays; `idle` changes only when a host-to-device class-interface SET_IDLE is
handled, and then `protocol` stays. -/
theorem setup_frame (D : Defs) (t : Transport) (s : Sys) (r : USBSetup) :
    (HIDD.setup D t s r).2.hid.config = s.hid.config ∧
    ((HIDD.setup D t s r).2.hid.protocol = s.hid.protocol ∨
      ((HIDD.setup D t s r).1 = true ∧
        r.bmRequestType = D.REQUEST_HOSTTODEVICE_CLASS_INTERFACE ∧
        r.bRequest = D.HID_SET_PROTOCOL ∧
        (HIDD.setup D t s r).2.hid.idle = s.hid.idle)) ∧
    ((HIDD.setup D t s r).2.hid.idle = s.hid.idle ∨
      ((HIDD.setup D t s r).1 = true ∧
        r.bmRequestType = D.REQUEST_HOSTTODEVICE_CLASS_INTERFACE ∧
        r.bRequest = D.HID_SET_IDLE ∧
        (HIDD.setup D t s r).2.hid.protocol = s.hid.protocol)) := by
  unfold HIDD.setup
  by_cases hi : s.hid.pluggedInterface ≠ r.wIndex
  · rw [if_pos hi]
    exact ⟨rfl, Or.inl rfl, Or.inl rfl⟩
  · rw [if_neg hi]
    dsimp only
    by_cases h1 : r.bmRequestType = D.REQUEST_DEVICETOHOST_CLASS_INTERFACE
    · rw [if_pos h1]
      cases hd : HIDD.setupDeviceToHost D t s r with
      | some res =>
        have := setupDeviceToHost_hid D t s r res hd
        simp only
        rw [this]
        exact ⟨rfl, Or.inl rfl, Or.inl rfl⟩
      | none =>
        simp only
        by_cases h2 : r.bmRequestType = D.REQUEST_HOSTTODEVICE_CLASS_INTERFACE
        · rw [if_pos h2]
          cases hh : HIDD.setupHostToDevice D t s r with
          | some res =>
            obtain ⟨f1, f2, f3⟩ := setupHostToDevice_frame D t s r res hh
            simp only
            refine ⟨f1, ?_, ?_⟩
            · rcases f2 with f2 | ⟨a, b, c⟩
              · exact Or.inl f2
              · exact Or.inr ⟨a, h2, b, c⟩
            · rcases f3 with f3 | ⟨a, b, c⟩
              · exact Or.inl f3
              · exact Or.inr ⟨a, h2, b, c⟩
          | none => exact ⟨rfl, Or.inl rfl, Or.inl rfl⟩
        · rw [if_neg h2]
          exact ⟨rfl, Or.inl rfl, Or.inl rfl⟩
    · rw [if_neg h1]
      simp only
      by_cases h2 : r.bmRequestType = D.REQUEST_HOSTTODEVICE_CLASS_INTERFACE
      · rw [if_pos h2]
        cases hh : HIDD.setupHostToDevice D t s r with
        | some res =>
          obtain ⟨f1, f2, f3⟩ := setupHostToDevice_frame D t s r res hh
          simp only
          refine ⟨f1, ?_, ?_⟩
          · rcases f2 with f2 | ⟨a, b, c⟩
            · exact Or.inl f2
            · exact Or.inr ⟨a, h2, b, c⟩
          · rcases f3 with f3 | ⟨a, b, c⟩
            · exact Or.inl f3
            · exact Or.inr ⟨a, h2, b, c⟩
        | none => exact ⟨rfl, Or.inl rfl, Or.inl rfl⟩
      · rw [if_neg h2]
        exact ⟨rfl, Or.inl rfl, Or.inl rfl⟩

/-- C15: the frame of every operation, for every input and transport. `setup`
never changes the configuration fields; it changes `protocol` only when it
handles a host-to-device class-interface SET_PROTOCOL and `idle` only when it
handles a host-to-device class-interface SET_IDLE; a SET_IDLE request leaves
`protocol` alone and a SET_PROTOCOL request leaves `idle` alone; requests with
the codes GET_REPORT, GET_PROTOCOL, GET_IDLE and SET_REPORT, and every
device-to-host class-interface request, leave both alone. `getInterface`,
`getDescriptor`, `SendReportNoID` and `SendReport` (merged or split) return
the driver with every field as it was. -/
theorem frame_property (D : Defs) (hD : D.WellFormed) (t : Transport) (s : Sys) :
    (∀ r : USBSetup,
      (HIDD.setup D t s r).2.hid.config = s.hid.config ∧
      ((HIDD.setup D t s r).2.hid.protocol ≠ s.hid.protocol →
        (HIDD.setup D t s r).1 = true ∧
        r.bmRequestType = D.REQUEST_HOSTTODEVICE_CLASS_INTERFACE ∧
        r.bRequest = D.HID_SET_PROTOCOL) ∧
      ((HIDD.setup D t s r).2.hid.idle ≠ s.hid.idle →
        (HIDD.setup D t s r).1 = true ∧
        r.bmRequestType = D.REQUEST_HOSTTODEVICE_CLASS_INTERFACE ∧
        r.bRequest = D.HID_SET_IDLE) ∧
      (r.bRequest = D.HID_SET_IDLE → (HIDD.setup D t s r).2.hid.protocol = s.hid.protocol) ∧
      (r.bRequest = D.HID_SET_PROTOCOL → (HIDD.setup D t s r).2.hid.idle = s.hid.idle) ∧
      ((r.bRequest = D.HID_GET_REPORT ∨ r.bRequest = D.HID_GET_PROTOCOL ∨
          r.bRequest = D.HID_GET_IDLE ∨ r.bRequest = D.HID_SET_REPORT ∨
          r.bmRequestType = D.REQUEST_DEVICETOHOST_CLASS_INTERFACE) →
        (HIDD.setup D t s r).2.hid.protocol = s.hid.protocol ∧
        (HIDD.setup D t s r).2.hid.idle = s.hid.idle)) ∧
    (∀ interfaceCount, (HIDD.getInterface D t s interfaceCount).2.2.hid = s.hid) ∧
    (∀ r, (HIDD.getDescriptor D t s r).2.hid = s.hid) ∧
    (∀ data n, (HIDD.SendReportNoID D t s data n).2.hid = s.hid) ∧
    (∀ id data n res, HIDD.SendReport D t s id data n = Except.ok res → res.2.hid = s.hid) := by
  have htn := hD.types_ne
  obtain ⟨⟨a1, a2, a3, a4, a5⟩, ⟨b1, b2, b3, b4⟩, ⟨c1, c2, c3⟩, ⟨d1, d2⟩, e1⟩ := hD.codes_ne
  refine ⟨?_, fun _ => rfl, ?_, fun _ _ => rfl, ?_⟩
  · intro r
    obtain ⟨f1, f2, f3⟩ := setup_frame D t s r
    refine ⟨f1, ?_, ?_, ?_, ?_, ?_⟩
    · intro hne
      rcases f2 with f2 | ⟨x, y, z, _⟩
      · exact absurd f2 hne
      · exact ⟨x, y, z⟩
    · intro hne
      rcases f3 with f3 | ⟨x, y, z, _⟩
      · exact absurd f3 hne
      · exact ⟨x, y, z⟩
    · intro hc
      rcases f2 with f2 | ⟨_, _, z, _⟩
      · exact f2
      · exact absurd (hc.symm.trans z) e1
    · intro hc
      rcases f3 with f3 | ⟨_, _, z, _⟩
      · exact f3
      · exact absurd (z.symm.trans hc) e1
    · intro hc
      constructor
      · rcases f2 with f2 | ⟨_, y, z, _⟩
        · exact f2
        · rcases hc with h | h | h | h | h
          · exact absurd (h.symm.trans z) a5
          · exact absurd (h.symm.trans z) c3
          · exact absurd (h.symm.trans z) b4
          · exact absurd (h.symm.trans z) d2
          · exact absurd (h.symm.trans y) htn
      · rcases f3 with f3 | ⟨_, y, z, _⟩
        · exact f3
        · rcases hc with h | h | h | h | h
          · exact absurd (h.symm.trans z) a4
          · exact absurd (h.symm.trans z) c2
          · exact absurd (h.symm.trans z) b3
          · exact absurd (h.symm.trans z) d1
          · exact absurd (h.symm.trans y) htn
  · intro r
    unfold HIDD.getDescriptor
    split_ifs <;> rfl
  · intro id data n res h
    unfold HIDD.SendReport at h
    split_ifs at h
    · cases h
      rfl
    · unfold HIDD.SendReportMerged at h
      dsimp only at h
      split_ifs at h
      cases h
      rfl
    · cases h
      unfold HIDD.SendReportSplit
      dsimp only
      split_ifs <;> rfl

theorem frame_property_witness :
    (HIDD.setup avrDefs (okTransport []) ⟨keyboard avrDefs, []⟩ (setIdle20 avrDefs)).2.hid.config
      = (keyboard avrDefs).config ∧
    (HIDD.setup avrDefs (okTransport []) ⟨keyboard avrDefs, []⟩ (setIdle20 avrDefs)).2.hid.protocol
      = (keyboard avrDefs).protocol ∧
    (HIDD.setup avrDefs (okTransport []) ⟨keyboard avrDefs, []⟩ (setIdle20 avrDefs)).2.hid.idle
      = 20 :=
  have h := (frame_property avrDefs avrDefs_wellFormed (okTransport [])
    ⟨keyboard avrDefs, []⟩).1 (setIdle20 avrDefs)
  ⟨h.1, h.2.2.2.1 rfl, rfl⟩

/-! ## The release flag -/

/-- Whether the endpoint argument of a write has the bits of
`TRANSFER_RELEASE` set. -/
def released (D : Defs) (ep : Nat) : Bool :=
  (ep &&& D.TRANSFER_RELEASE) == D.TRANSFER_RELEASE

theorem or_and_self_right (a b : Nat) : (a ||| b) &&& b = b := by
  apply Nat.eq_of_testBit_eq
  intro i
  simp only [Nat.testBit_and, Nat.testBit_or]
  cases a.testBit i <;> cases b.testBit i <;> rfl

theorem released_or (D : Defs) (ep : Nat) : released D (ep ||| D.TRANSFER_RELEASE) = true := by
  simp [released, or_and_self_right]

/-- C16: with an assigned endpoint number that does not itself contain the
release flag, `SendReportNoID` makes exactly one write, to the assigned
endpoint with the release flag set. On the split build `SendReport` with a
non-zero id first writes the one id byte to the assigned endpoint without
the release flag; if that write fails it is the only write and its result is
returned; otherwise the payload write of `n` bytes follows, with the release
flag set, and nothing else. -/
theorem release_flag_ordering (D : Defs) (t : Transport) (s : Sys) (id : Nat)
    (data : List Nat) (n : Int)
    (hpe : released D s.hid.pluggedEndpoint = false) :
    (∃ ret,
      HIDD.SendReportNoID D t s data n = (ret, { s with trace := s.trace ++
        [Event.send (s.hid.pluggedEndpoint ||| D.TRANSFER_RELEASE) (readBuf data n) n ret] }) ∧
      released D (s.hid.pluggedEndpoint ||| D.TRANSFER_RELEASE) = true) ∧
    (D.ARDUINO_ARCH_SAMD = false → id ≠ 0 →
      ∃ r₁, r₁ = t.USB_Send s.trace s.hid.pluggedEndpoint [id] 1 ∧
        released D s.hid.pluggedEndpoint = false ∧
        (r₁ < 0 →
          HIDD.SendReport D t s id data n = Except.ok (r₁, { s with trace := s.trace ++
            [Event.send s.hid.pluggedEndpoint [id] 1 r₁] })) ∧
        (¬ r₁ < 0 →
          ∃ ret r₂,
            HIDD.SendReport D t s id data n = Except.ok (ret, { s with trace := s.trace ++
              [Event.send s.hid.pluggedEndpoint [id] 1 r₁,
               Event.send (s.hid.pluggedEndpoint ||| D.TRANSFER_RELEASE) (readBuf data n) n
                 r₂] }) ∧
            released D (s.hid.pluggedEndpoint ||| D.TRANSFER_RELEASE) = true)) := by
  refine ⟨⟨_, rfl, released_or D _⟩, ?_⟩
  intro hm hid
  refine ⟨_, rfl, hpe, ?_, ?_⟩
  · intro hf
    simp only [HIDD.SendReport, if_neg hid, hm, HIDD.SendReportSplit, if_pos hf,
      Bool.false_eq_true, if_false]
  · intro hf
    obtain ⟨r₂, hr₂⟩ : ∃ r₂, r₂ = t.USB_Send (s.trace ++ [Event.send s.hid.pluggedEndpoint [id] 1
        (t.USB_Send s.trace s.hid.pluggedEndpoint [id] 1)])
        (s.hid.pluggedEndpoint ||| D.TRANSFER_RELEASE) (readBuf data n) n := ⟨_, rfl⟩
    refine ⟨if r₂ < 0 then r₂ else addInt D (t.USB_Send s.trace s.hid.pluggedEndpoint [id] 1) r₂,
      r₂, ?_, released_or D _⟩
    simp only [HIDD.SendReport, if_neg hid, hm, HIDD.SendReportSplit, if_neg hf,
      Bool.false_eq_true, if_false, List.append_assoc, List.singleton_append, hr₂]
    split <;> rfl

theorem release_flag_ordering_witness :
    released avrDefs (keyboard avrDefs).pluggedEndpoint = false ∧
    ∃ ret,
      HIDD.SendReportNoID avrDefs (okTransport []) ⟨keyboard avrDefs, []⟩
          [0, 0, 4, 0, 0, 0, 0, 0] 8
        = (ret, { (⟨keyboard avrDefs, []⟩ : Sys) with
            trace := (⟨keyboard avrDefs, []⟩ : Sys).trace ++
              [Event.send ((⟨keyboard avrDefs, []⟩ : Sys).hid.pluggedEndpoint
                  ||| avrDefs.TRANSFER_RELEASE)
                (readBuf [0, 0, 4, 0, 0, 0, 0, 0] 8) 8 ret] }) ∧
      released avrDefs ((⟨keyboard avrDefs, []⟩ : Sys).hid.pluggedEndpoint
        ||| avrDefs.TRANSFER_RELEASE) = true :=
  ⟨by decide,
   (release_flag_ordering avrDefs (okTransport []) ⟨keyboard avrDefs, []⟩ 2
      [0, 0, 4, 0, 0, 0, 0, 0] 8 (by decide)).1⟩

/-- The send of the scenario: the eight bytes go out in one released write on
endpoint 3. -/
theorem send_report_scenario :
    HIDD.SendReport avrDefs (okTransport []) ⟨keyboard avrDefs, []⟩ 0
        [0, 0, 4, 0, 0, 0, 0, 0] 8
      = Except.ok (8, ⟨keyboard avrDefs,
          [Event.send (3 ||| 0x40) [0, 0, 4, 0, 0, 0, 0, 0] 8 8]⟩) := by
  rfl

/-! ## The protocol mode over a run of requests -/

/-- The state after `setup` has been called on each request of a list in
turn. -/
def HIDD.setupAll (D : Defs) (t : Transport) (s : Sys) : List USBSetup → Sys
  | [] => s
  | r :: rs => HIDD.setupAll D t (HIDD.setup D t s r).2 rs

/-- A SET_PROTOCOL for interface 2 with low value byte `v`. -/
def setProtocol (D : Defs) (v : Nat) : USBSetup :=
  { bmRequestType := D.REQUEST_HOSTTODEVICE_CLASS_INTERFACE, bRequest := D.HID_SET_PROTOCOL,
    wValueL := v, wValueH := 0, wIndex := 2, wLength := 0 }

theorem setupHostToDevice_protocol (D : Defs) (t : Transport) (s : Sys) (r : USBSetup)
    (res : Bool × Sys) (h : HIDD.setupHostToDevice D t s r = some res) :
    res.2.hid.protocol = s.hid.protocol ∨
      (r.bRequest = D.HID_SET_PROTOCOL ∧ res.2.hid.protocol = r.wValueL) := by
  unfold HIDD.setupHostToDevice at h
  dsimp only at h
  split_ifs at h <;> cases h <;> simp [*]

/-- One call of `setup` keeps `protocol` or, on a host-to-device
class-interface SET_PROTOCOL, stores the low value byte of the request. -/
theorem setup_protocol_step (D : Defs) (t : Transport) (s : Sys) (r : USBSetup) :
    (HIDD.setup D t s r).2.hid.protocol = s.hid.protocol ∨
      (r.bmRequestType = D.REQUEST_HOSTTODEVICE_CLASS_INTERFACE ∧
        r.bRequest = D.HID_SET_PROTOCOL ∧
        (HIDD.setup D t s r).2.hid.protocol = r.wValueL) := by
  unfold HIDD.setup
  by_cases hi : s.hid.pluggedInterface ≠ r.wIndex
  · rw [if_pos hi]
    exact Or.inl rfl
  · rw [if_neg hi]
    dsimp only
    have second : ∀ x : Bool × Sys,
        x = (match (if r.bmRequestType = D.REQUEST_HOSTTODEVICE_CLASS_INTERFACE then
              HIDD.setupHostToDevice D t s r else none) with
            | some res => res
            | none => (false, s)) →
        x.2.hid.protocol = s.hid.protocol ∨
          (r.bmRequestType = D.REQUEST_HOSTTODEVICE_CLASS_INTERFACE ∧
            r.bRequest = D.HID_SET_PROTOCOL ∧ x.2.hid.protocol = r.wValueL) := by
      intro x hx
      by_cases h2 : r.bmRequestType = D.REQUEST_HOSTTODEVICE_CLASS_INTERFACE
      · rw [if_pos h2] at hx
        cases hh : HIDD.setupHostToDevice D t s r with
        | some res =>
          rw [hh] at hx
          have hx' : x = res := hx
          rw [hx']
          rcases setupHostToDevice_protocol D t s r res hh with f | ⟨a, b⟩
          · exact Or.inl f
          · exact Or.inr ⟨h2, a, b⟩
        | none =>
          rw [hh] at hx
          have hx' : x = (false, s) := hx
          rw [hx']
          exact Or.inl rfl
      · rw [if_neg h2] at hx
        subst hx
        exact Or.inl rfl
    by_cases h1 : r.bmRequestType = D.REQUEST_DEVICETOHOST_CLASS_INTERFACE
    · rw [if_pos h1]
      cases hd : HIDD.setupDeviceToHost D t s r with
      | some res =>
        simp only
        rw [setupDeviceToHost_hid D t s r res hd]
        exact Or.inl rfl
      | none => exact second _ rfl
    · rw [if_neg h1]
      exact second _ rfl

/-- C17, as written, fails: a SET_PROTOCOL with low value byte 7 takes
`protocol` from REPORT (1) to 7, which is neither BOOT (0) nor REPORT (1). -/
theorem protocol_leaves_enum :
    ((keyboard avrDefs).protocol = 0 ∨ (keyboard avrDefs).protocol = 1) ∧
    (HIDD.setupAll avrDefs (okTransport []) ⟨keyboard avrDefs, []⟩
      [setProtocol avrDefs 7]).hid.protocol = 7 ∧
    ¬ ((HIDD.setupAll avrDefs (okTransport []) ⟨keyboard avrDefs, []⟩
        [setProtocol avrDefs 7]).hid.protocol = 0 ∨
       (HIDD.setupAll avrDefs (okTransport []) ⟨keyboard avrDefs, []⟩
        [setProtocol avrDefs 7]).hid.protocol = 1) := by
  decide

/-- C17, amended: starting from a driver whose `protocol` is BOOT (0) or
REPORT (1), after every sequence of `setup` calls in which each host-to-device
class-interface SET_PROTOCOL request carries 0 or 1 in its low value byte,
`protocol` is still 0 or 1. -/
theorem protocol_mode_invariant (D : Defs) (t : Transport) (rs : List USBSetup) (s : Sys)
    (h0 : s.hid.protocol = 0 ∨ s.hid.protocol = 1)
    (hrs : ∀ r ∈ rs, r.bmRequestType = D.REQUEST_HOSTTODEVICE_CLASS_INTERFACE →
      r.bRequest = D.HID_SET_PROTOCOL → r.wValueL = 0 ∨ r.wValueL = 1) :
    (HIDD.setupAll D t s rs).hid.protocol = 0 ∨ (HIDD.setupAll D t s rs).hid.protocol = 1 := by
  induction rs generalizing s with
  | nil => exact h0
  | cons r rs ih =>
    unfold HIDD.setupAll
    apply ih
    · rcases setup_protocol_step D t s r with f | ⟨a, b, c⟩
      · rw [f]
        exact h0
      · rw [c]
        exact hrs r (List.mem_cons_self r rs) a b
    · intro r' hr'
      exact hrs r' (List.mem_cons_of_mem r hr')

theorem protocol_mode_invariant_witness :
    ((keyboard avrDefs).protocol = 0 ∨ (keyboard avrDefs).protocol = 1) ∧
    ((HIDD.setupAll avrDefs (okTransport []) ⟨keyboard avrDefs, []⟩
        [setProtocol avrDefs 0, setIdle20 avrDefs, getProtocol avrDefs,
         setProtocol avrDefs 1]).hid.protocol = 0 ∨
     (HIDD.setupAll avrDefs (okTransport []) ⟨keyboard avrDefs, []⟩
        [setProtocol avrDefs 0, setIdle20 avrDefs, getProtocol avrDefs,
         setProtocol avrDefs 1]).hid.protocol = 1) :=
  ⟨by decide,
   protocol_mode_invariant avrDefs (okTransport [])
     [setProtocol avrDefs 0, setIdle20 avrDefs, getProtocol avrDefs, setProtocol avrDefs 1]
     ⟨keyboard avrDefs, []⟩ (by decide) (by decide)⟩

/-! ## The merge buffer -/

/-- C18 fails on the code: on the merged build `SendReport` with id 1 and a
payload of 64 bytes is not refused by any check, and its `memcpy` of 64 bytes
to `&p[1]` runs one byte past the 64-byte array `p`. -/
theorem merge_buffer_overrun :
    samdDefs.ARDUINO_ARCH_SAMD = true ∧
    HIDD.SendReport samdDefs (okTransport []) ⟨keyboard samdDefs, []⟩ 1
      (List.replicate 64 0) 64 = Except.error Fault.bufferIndex := by
  exact ⟨rfl, rfl⟩

/-- On the merged build, with a non-zero id, `SendReport` runs past its buffer
exactly when the length is negative or above 63; nothing in it refuses such a
length. -/
theorem merge_buffer_fault_iff (D : Defs) (t : Transport) (s : Sys) (id : Nat)
    (data : List Nat) (n : Int) (hm : D.ARDUINO_ARCH_SAMD = true) (hid : id ≠ 0) :
    HIDD.SendReport D t s id data n = Except.error Fault.bufferIndex ↔ (n < 0 ∨ 63 < n) := by
  by_cases hb : n < 0 ∨ (64 : Int) < 1 + n
  · have hb' : n < 0 ∨ 63 < n := by omega
    simp only [HIDD.SendReport, if_neg hid, hm, if_true, HIDD.SendReportMerged, if_pos hb, hb']
  · have hb' : ¬ (n < 0 ∨ 63 < n) := by omega
    simp only [HIDD.SendReport, if_neg hid, hm, if_true, HIDD.SendReportMerged, if_neg hb, hb',
      iff_false]
    intro h
    cases h

end Kaleidoscope
